import Mathlib

/-!
Verification of the German wage-tax calculator (brutto-netto-rechner).

The definitions below are a shallow embedding of the calculator source
(`lib/tax-calculator`, 2026 profile edition): JavaScript numbers are modelled
as exact rationals, `Math.floor` as the integer floor, `Math.round` as
`mathRound` (floor of the value plus one half, which is the JS rounding mode),
and the validated request fields as `Option ℚ` where `none` stands for a
non-finite JS number (`NaN`, `Infinity`), which `Number.isFinite` rejects.
Fallible operations return `Except`/`Option`.
-/

namespace BruttoNetto

/-- JS `Math.round`: rounds half away towards positive infinity. -/
def mathRound (q : ℚ) : ℚ := (⌊q + 1/2⌋ : ℤ)

/-- Source helper `roundToCents`: `Math.round(value * 100) / 100`. -/
def roundToCents (value : ℚ) : ℚ := mathRound (value * 100) / 100

/-- The constant record of one tax profile (source: entries of `TAX_PROFILES`). -/
structure TaxConfig where
  grundfreibetrag : ℚ
  zone1End : ℚ
  zone2End : ℚ
  zone3End : ℚ
  zone2CoeffA : ℚ
  zone3CoeffA : ℚ
  zone3Base : ℚ
  zone4Offset : ℚ
  zone5Offset : ℚ
  werbungskostenPauschbetrag : ℚ
  sonderausgabenPauschbetrag : ℚ
  entlastungsbetragAlleinerziehende : ℚ
  rvBeitragssatz : ℚ
  rvBeitragsbemessungsgrenze : ℚ
  avBeitragssatz : ℚ
  avBeitragsbemessungsgrenze : ℚ
  kvBeitragssatz : ℚ
  kvBeitragsbemessungsgrenze : ℚ
  pvBeitragssatz : ℚ
  pvBeitragsbemessungsgrenze : ℚ
  pvArbeitnehmerAnteilBasis : ℚ
  pvKinderlosenzuschlag : ℚ
  pvKinderabschlag : ℚ
  soliFreigrenze : ℚ
  soliMinderungssatz : ℚ
  soliSatz : ℚ
  vorsorgepauschaleRundung : ℚ
  stkl5Grenze1 : ℚ
  stkl5Grenze2 : ℚ
  stkl5Grenze3 : ℚ
  avVorsorgeFaktor : ℚ

/-- Profile `2026_current` of the source `TAX_PROFILES` table. -/
def cfg2026current : TaxConfig where
  grundfreibetrag := 12348
  zone1End := 17799
  zone2End := 69878
  zone3End := 277825
  zone2CoeffA := 914.51
  zone3CoeffA := 173.1
  zone3Base := 1034.87
  zone4Offset := 11135.63
  zone5Offset := 19470.38
  werbungskostenPauschbetrag := 1230
  sonderausgabenPauschbetrag := 36
  entlastungsbetragAlleinerziehende := 4260
  rvBeitragssatz := 0.186
  rvBeitragsbemessungsgrenze := 101400
  avBeitragssatz := 0.026
  avBeitragsbemessungsgrenze := 101400
  kvBeitragssatz := 0.146
  kvBeitragsbemessungsgrenze := 69750
  pvBeitragssatz := 0.036
  pvBeitragsbemessungsgrenze := 69750
  pvArbeitnehmerAnteilBasis := 0.018
  pvKinderlosenzuschlag := 0.006
  pvKinderabschlag := 0.0025
  soliFreigrenze := 20350
  soliMinderungssatz := 0.119
  soliSatz := 0.055
  vorsorgepauschaleRundung := 36
  stkl5Grenze1 := 14071
  stkl5Grenze2 := 34939
  stkl5Grenze3 := 222260
  avVorsorgeFaktor := 0.235

/-- Profile `2026_legacy` of the source `TAX_PROFILES` table. -/
def cfg2026legacy : TaxConfig where
  grundfreibetrag := 12348
  zone1End := 17443
  zone2End := 68480
  zone3End := 277825
  zone2CoeffA := 932.3
  zone3CoeffA := 176.64
  zone3Base := 1015.13
  zone4Offset := 10911.92
  zone5Offset := 19185.88
  werbungskostenPauschbetrag := 1230
  sonderausgabenPauschbetrag := 36
  entlastungsbetragAlleinerziehende := 4260
  rvBeitragssatz := 0.186
  rvBeitragsbemessungsgrenze := 101400
  avBeitragssatz := 0.026
  avBeitragsbemessungsgrenze := 101400
  kvBeitragssatz := 0.146
  kvBeitragsbemessungsgrenze := 69750
  pvBeitragssatz := 0.036
  pvBeitragsbemessungsgrenze := 69750
  pvArbeitnehmerAnteilBasis := 0.018
  pvKinderlosenzuschlag := 0.006
  pvKinderabschlag := 0.0025
  soliFreigrenze := 20350
  soliMinderungssatz := 0.119
  soliSatz := 0.055
  vorsorgepauschaleRundung := 36
  stkl5Grenze1 := 14071
  stkl5Grenze2 := 34939
  stkl5Grenze3 := 222260
  avVorsorgeFaktor := 0.235

/-- Source constant `DEFAULT_TAX_PROFILE`. -/
def DEFAULT_TAX_PROFILE : String := "2026_current"

/-- The source `TAX_PROFILES` record, as a lookup by identifier; a JS property
access on a missing key yields `undefined`, modelled as `none`. -/
def TAX_PROFILES (id : String) : Option TaxConfig :=
  if id = "2026_current" then some cfg2026current
  else if id = "2026_legacy" then some cfg2026legacy
  else none

/-- Source `getTaxProfileConfig(profileId)`: looks up
`TAX_PROFILES[profileId ?? DEFAULT_TAX_PROFILE]`. -/
def getTaxProfileConfig (profileId : Option String) : Option TaxConfig :=
  TAX_PROFILES (profileId.getD DEFAULT_TAX_PROFILE)

/-- The `steuer` value selected by the if-chain of source `calculateTarif`,
as a function of the already floored amount `x`. -/
def tarifRaw (x : ℚ) (taxConfig : TaxConfig) : ℚ :=
  if x ≤ taxConfig.grundfreibetrag then 0
  else if x ≤ taxConfig.zone1End then
    ((taxConfig.zone2CoeffA * ((x - taxConfig.grundfreibetrag) / 10000) + 1400) *
      ((x - taxConfig.grundfreibetrag) / 10000))
  else if x ≤ taxConfig.zone2End then
    ((taxConfig.zone3CoeffA * ((x - taxConfig.zone1End) / 10000) + 2397) *
      ((x - taxConfig.zone1End) / 10000) + taxConfig.zone3Base)
  else if x ≤ taxConfig.zone3End then 0.42 * x - taxConfig.zone4Offset
  else 0.45 * x - taxConfig.zone5Offset

/-- Source `calculateTarif(zve, taxConfig)`: floors the input to a full Euro,
applies the zone formula chain (`tarifRaw`), and returns
`Math.max(0, roundToCents(steuer))`. -/
def calculateTarif (zve : ℚ) (taxConfig : TaxConfig) : ℚ :=
  max 0 (roundToCents (tarifRaw ((⌊zve⌋ : ℤ) : ℚ) taxConfig))

/-- Source `calculateUp56(zx, taxConfig)` (PAP sub-procedure UP5-6). -/
def calculateUp56 (zx : ℚ) (taxConfig : TaxConfig) : ℚ :=
  max ((calculateTarif (zx * 1.25) taxConfig - calculateTarif (zx * 0.75) taxConfig) * 2)
    ((⌊zx * 0.14⌋ : ℤ) : ℚ)

/-- Source `calculateTarifClassFiveSix(zve, taxConfig)` (PAP MST5-6). -/
def calculateTarifClassFiveSix (zve : ℚ) (taxConfig : TaxConfig) : ℚ :=
  let zzx : ℚ := ((⌊zve⌋ : ℤ) : ℚ)
  let zx : ℚ := min zzx taxConfig.stkl5Grenze2
  let st0 : ℚ := calculateUp56 zx taxConfig
  let st1 : ℚ :=
    if taxConfig.stkl5Grenze2 < zzx then
      if taxConfig.stkl5Grenze3 < zzx then
        ((⌊st0 + (taxConfig.stkl5Grenze3 - taxConfig.stkl5Grenze2) * 0.42 +
            (zzx - taxConfig.stkl5Grenze3) * 0.45⌋ : ℤ) : ℚ)
      else ((⌊st0 + (zzx - taxConfig.stkl5Grenze2) * 0.42⌋ : ℤ) : ℚ)
    else st0
  let st2 : ℚ :=
    if taxConfig.stkl5Grenze1 < zzx then
      max st1 ((⌊calculateUp56 taxConfig.stkl5Grenze1 taxConfig +
        (zzx - taxConfig.stkl5Grenze1) * 0.42⌋ : ℤ) : ℚ)
    else st1
  max 0 ((⌊st2⌋ : ℤ) : ℚ)

/-- Source `calculateSplittingTarif(zve, taxConfig)`:
`roundToCents(2 * calculateTarif(zve / 2))`. -/
def calculateSplittingTarif (zve : ℚ) (taxConfig : TaxConfig) : ℚ :=
  roundToCents (2 * calculateTarif (zve / 2) taxConfig)

/-- Source `roundTo36(zve, taxConfig)`: round down to a full multiple of the
profile rounding granularity. -/
def roundTo36 (zve : ℚ) (taxConfig : TaxConfig) : ℚ :=
  ((⌊zve / taxConfig.vorsorgepauschaleRundung⌋ : ℤ) : ℚ) * taxConfig.vorsorgepauschaleRundung

/-- Source `calculateSoli(lohnsteuer, taxConfig)`. -/
def calculateSoli (lohnsteuer : ℚ) (taxConfig : TaxConfig) : ℚ :=
  if lohnsteuer ≤ taxConfig.soliFreigrenze then 0
  else
    roundToCents (min (lohnsteuer * taxConfig.soliSatz)
      ((lohnsteuer - taxConfig.soliFreigrenze) * taxConfig.soliMinderungssatz))

/-- Source `calculateKirchensteuer(lohnsteuer, enabled, satz)`. -/
def calculateKirchensteuer (lohnsteuer : ℚ) (enabled : Bool) (satz : ℚ) : ℚ :=
  if enabled then roundToCents (lohnsteuer * satz) else 0

/-- Source `calculatePVSatz(alter, kinderAnzahl, taxConfig)`. -/
def calculatePVSatz (alter kinderAnzahl : ℚ) (taxConfig : TaxConfig) : ℚ :=
  max 0.017
    ((taxConfig.pvArbeitnehmerAnteilBasis +
        (if 23 ≤ alter ∧ kinderAnzahl = 0 then taxConfig.pvKinderlosenzuschlag else 0)) -
      max 0 (min (kinderAnzahl - 1) 4) * taxConfig.pvKinderabschlag)

/-- Source `calculateVorsorgepauschale(rv, av, kv, pv, taxConfig)`. -/
def calculateVorsorgepauschale (rvBeitrag avBeitrag kvBeitrag pvBeitrag : ℚ)
    (taxConfig : TaxConfig) : ℚ :=
  mathRound (rvBeitrag + avBeitrag * taxConfig.avVorsorgeFaktor + kvBeitrag + pvBeitrag)

/-- Record returned by source `calculateSozialabgaben`. -/
structure Sozialabgaben where
  rentenversicherung : ℚ
  arbeitslosenversicherung : ℚ
  krankenversicherung : ℚ
  pflegeversicherung : ℚ
  gesamtSozialabgaben : ℚ
  vorsorgepauschale : ℚ

/-- The `rentenversicherung` value of source `calculateSozialabgaben`. -/
def rentenversicherungOf (brutto : ℚ) (taxConfig : TaxConfig) : ℚ :=
  roundToCents (min brutto taxConfig.rvBeitragsbemessungsgrenze * (taxConfig.rvBeitragssatz / 2))

/-- The `arbeitslosenversicherung` value of source `calculateSozialabgaben`. -/
def arbeitslosenversicherungOf (brutto : ℚ) (taxConfig : TaxConfig) : ℚ :=
  roundToCents (min brutto taxConfig.avBeitragsbemessungsgrenze * (taxConfig.avBeitragssatz / 2))

/-- The `krankenversicherung` value of source `calculateSozialabgaben`. -/
def krankenversicherungOf (brutto zusatzbeitrag : ℚ) (taxConfig : TaxConfig) : ℚ :=
  roundToCents (min brutto taxConfig.kvBeitragsbemessungsgrenze *
    (taxConfig.kvBeitragssatz / 2 + zusatzbeitrag / 100 / 2))

/-- The `pflegeversicherung` value of source `calculateSozialabgaben`. -/
def pflegeversicherungOf (brutto alter kinderAnzahl : ℚ) (taxConfig : TaxConfig) : ℚ :=
  roundToCents (min brutto taxConfig.pvBeitragsbemessungsgrenze *
    calculatePVSatz alter kinderAnzahl taxConfig)

/-- Source `calculateSozialabgaben(brutto, zusatzbeitrag, alter, kinderAnzahl,
taxConfig)`. -/
def calculateSozialabgaben (brutto zusatzbeitrag alter kinderAnzahl : ℚ)
    (taxConfig : TaxConfig) : Sozialabgaben :=
  { rentenversicherung := rentenversicherungOf brutto taxConfig
    arbeitslosenversicherung := arbeitslosenversicherungOf brutto taxConfig
    krankenversicherung := krankenversicherungOf brutto zusatzbeitrag taxConfig
    pflegeversicherung := pflegeversicherungOf brutto alter kinderAnzahl taxConfig
    gesamtSozialabgaben :=
      roundToCents (rentenversicherungOf brutto taxConfig +
        arbeitslosenversicherungOf brutto taxConfig +
        krankenversicherungOf brutto zusatzbeitrag taxConfig +
        pflegeversicherungOf brutto alter kinderAnzahl taxConfig)
    vorsorgepauschale :=
      calculateVorsorgepauschale (rentenversicherungOf brutto taxConfig)
        (arbeitslosenversicherungOf brutto taxConfig)
        (krankenversicherungOf brutto zusatzbeitrag taxConfig)
        (pflegeversicherungOf brutto alter kinderAnzahl taxConfig) taxConfig }

/-- The six wage-tax classes (source type `Steuerklasse`). -/
inductive Steuerklasse where
  | I
  | II
  | III
  | IV
  | V
  | VI
deriving DecidableEq, Repr

/-- The `effectiveWerbungskosten` value of source `calculateTax`. -/
def effectiveWerbungskosten (taxConfig : TaxConfig) (steuerklasse : Steuerklasse)
    (werbungskosten : ℚ) : ℚ :=
  if steuerklasse = Steuerklasse.VI then 0
  else max taxConfig.werbungskostenPauschbetrag werbungskosten

/-- The `effectiveSonderausgaben` value of source `calculateTax`. -/
def effectiveSonderausgaben (taxConfig : TaxConfig) (steuerklasse : Steuerklasse) : ℚ :=
  if steuerklasse = Steuerklasse.VI then 0 else taxConfig.sonderausgabenPauschbetrag

/-- The taxable income `zve` computed by source `calculateTax` just before the
tax-class dispatch (after all subtractions and the clamp at zero). -/
def zvERohOf (taxConfig : TaxConfig) (steuerklasse : Steuerklasse)
    (bruttoJahr werbungskosten vorsorgepauschale : ℚ) : ℚ :=
  max 0 (bruttoJahr - effectiveWerbungskosten taxConfig steuerklasse werbungskosten -
    effectiveSonderausgaben taxConfig steuerklasse -
    (if steuerklasse = Steuerklasse.II then taxConfig.entlastungsbetragAlleinerziehende else 0) -
    vorsorgepauschale)

/-- The tax-class switch of source `calculateTax`, applied to the rounded base. -/
def lohnsteuerFor (taxConfig : TaxConfig) (steuerklasse : Steuerklasse)
    (zvEForLohnsteuer : ℚ) : ℚ :=
  match steuerklasse with
  | .I | .II | .IV => calculateTarif zvEForLohnsteuer taxConfig
  | .III => calculateSplittingTarif zvEForLohnsteuer taxConfig
  | .V | .VI => calculateTarifClassFiveSix zvEForLohnsteuer taxConfig

/-- Result record of source `calculateTax`. -/
structure TaxResult where
  bruttoJahr : ℚ
  taxProfileId : String
  steuerklasse : Steuerklasse
  rentenversicherung : ℚ
  arbeitslosenversicherung : ℚ
  krankenversicherung : ℚ
  pflegeversicherung : ℚ
  gesamtSozialabgaben : ℚ
  werbungskostenPauschbetrag : ℚ
  sonderausgabenPauschbetrag : ℚ
  vorsorgepauschale : ℚ
  zuVersteuerndesEinkommen : ℚ
  zvEForLohnsteuer : ℚ
  lohnsteuer : ℚ
  solidaritaetszuschlag : ℚ
  kirchensteuer : ℚ
  gesamtSteuern : ℚ
  nettoJahr : ℚ
  nettoMonat : ℚ
  steuerSatz : ℚ
  abgabenSatz : ℚ
  nettoQuote : ℚ

/-- Body of source `calculateTax` after validation succeeded, with the five
validated fields already extracted as rationals. -/
def computeResult (taxConfig : TaxConfig) (resolvedTaxProfileId : String)
    (steuerklasse : Steuerklasse) (kirchensteuer : Bool)
    (kirchensteuerSatz bruttoJahr zusatzbeitrag werbungskosten kinderAnzahl alter : ℚ) :
    TaxResult :=
  let sozialabgaben := calculateSozialabgaben bruttoJahr zusatzbeitrag alter kinderAnzahl taxConfig
  let zvERoh :=
    zvERohOf taxConfig steuerklasse bruttoJahr werbungskosten sozialabgaben.vorsorgepauschale
  let zvEForLohnsteuer := roundTo36 zvERoh taxConfig
  let lohnsteuer := lohnsteuerFor taxConfig steuerklasse zvEForLohnsteuer
  let solidaritaetszuschlag := calculateSoli lohnsteuer taxConfig
  let kirchensteuerBetrag := calculateKirchensteuer lohnsteuer kirchensteuer kirchensteuerSatz
  let gesamtSteuern := lohnsteuer + solidaritaetszuschlag + kirchensteuerBetrag
  let gesamtAbzuege := gesamtSteuern + sozialabgaben.gesamtSozialabgaben
  let nettoJahr := bruttoJahr - gesamtAbzuege
  { bruttoJahr := bruttoJahr
    taxProfileId := resolvedTaxProfileId
    steuerklasse := steuerklasse
    rentenversicherung := sozialabgaben.rentenversicherung
    arbeitslosenversicherung := sozialabgaben.arbeitslosenversicherung
    krankenversicherung := sozialabgaben.krankenversicherung
    pflegeversicherung := sozialabgaben.pflegeversicherung
    gesamtSozialabgaben := sozialabgaben.gesamtSozialabgaben
    werbungskostenPauschbetrag := effectiveWerbungskosten taxConfig steuerklasse werbungskosten
    sonderausgabenPauschbetrag := effectiveSonderausgaben taxConfig steuerklasse
    vorsorgepauschale := sozialabgaben.vorsorgepauschale
    zuVersteuerndesEinkommen := zvERoh
    zvEForLohnsteuer := zvEForLohnsteuer
    lohnsteuer := lohnsteuer
    solidaritaetszuschlag := solidaritaetszuschlag
    kirchensteuer := kirchensteuerBetrag
    gesamtSteuern := gesamtSteuern
    nettoJahr := roundToCents nettoJahr
    nettoMonat := roundToCents (nettoJahr / 12)
    steuerSatz := if 0 < bruttoJahr then gesamtSteuern / bruttoJahr * 100 else 0
    abgabenSatz := if 0 < bruttoJahr then gesamtAbzuege / bruttoJahr * 100 else 0
    nettoQuote := if 0 < bruttoJahr then nettoJahr / bruttoJahr * 100 else 0 }

/-- Request record of source `calculateTax`. The five validated numeric fields
are `Option ℚ`: `none` models a non-finite JS number, which
`Number.isFinite` rejects. -/
structure TaxInput where
  bruttoJahr : Option ℚ
  taxProfileId : Option String
  steuerklasse : Steuerklasse
  kirchensteuer : Bool
  kirchensteuerSatz : ℚ
  zusatzbeitrag : Option ℚ
  werbungskosten : Option ℚ
  kinderAnzahl : Option ℚ
  alter : Option ℚ

/-- One validation guard of source `calculateTax`:
`Number.isFinite(v) && !(v < 0)`. -/
def validField : Option ℚ → Bool
  | none => false
  | some q => decide (0 ≤ q)

/-- Source `calculateTax(input)`: validates the five numeric fields in source
order (first failure wins, with the source error message), resolves the
profile, and otherwise produces the full result record. An unknown profile
identifier leads to a JS `TypeError` when the undefined config is first
dereferenced, which happens after validation; this failure is modelled as the
final `.error`. -/
def calculateTax (input : TaxInput) : Except String TaxResult :=
  if validField input.bruttoJahr then
    if validField input.zusatzbeitrag then
      if validField input.werbungskosten then
        if validField input.kinderAnzahl then
          if validField input.alter then
            match TAX_PROFILES (input.taxProfileId.getD DEFAULT_TAX_PROFILE) with
            | some taxConfig =>
              .ok (computeResult taxConfig (input.taxProfileId.getD DEFAULT_TAX_PROFILE)
                input.steuerklasse
                input.kirchensteuer input.kirchensteuerSatz (input.bruttoJahr.getD 0)
                (input.zusatzbeitrag.getD 0) (input.werbungskosten.getD 0)
                (input.kinderAnzahl.getD 0) (input.alter.getD 0))
            | none => .error "TypeError: Cannot read properties of undefined"
          else .error "alter muss eine nicht-negative Zahl sein."
        else .error "kinderAnzahl muss eine nicht-negative Zahl sein."
      else .error "werbungskosten muss eine nicht-negative Zahl sein."
    else .error "zusatzbeitrag muss eine nicht-negative Zahl sein."
  else .error "bruttoJahr muss eine nicht-negative Zahl sein."


/-- The two profile constant sets that occur in the source table. -/
def goodConfig (taxConfig : TaxConfig) : Prop :=
  taxConfig = cfg2026current ∨ taxConfig = cfg2026legacy

/-- Second definition for claim C2, following the claim wording of the
double-difference sub-procedure: the doubled tariff difference is FLOORED
before the comparison with the floored 14 percent value. The source
`calculateUp56` does not floor the doubled difference. -/
def calculateUp56Claimed (zx : ℚ) (taxConfig : TaxConfig) : ℚ :=
  max ((⌊(calculateTarif (zx * 1.25) taxConfig - calculateTarif (zx * 0.75) taxConfig) *
      2⌋ : ℤ) : ℚ)
    ((⌊zx * 0.14⌋ : ℤ) : ℚ)

/-- Second definition for claim C2: the secondary-class procedure exactly as the
claim describes it, built on `calculateUp56Claimed` instead of the source
`calculateUp56`; otherwise identical to `calculateTarifClassFiveSix`. -/
def calculateTarifClassFiveSixClaimed (zve : ℚ) (taxConfig : TaxConfig) : ℚ :=
  let zzx : ℚ := ((⌊zve⌋ : ℤ) : ℚ)
  let zx : ℚ := min zzx taxConfig.stkl5Grenze2
  let st0 : ℚ := calculateUp56Claimed zx taxConfig
  let st1 : ℚ :=
    if taxConfig.stkl5Grenze2 < zzx then
      if taxConfig.stkl5Grenze3 < zzx then
        ((⌊st0 + (taxConfig.stkl5Grenze3 - taxConfig.stkl5Grenze2) * 0.42 +
            (zzx - taxConfig.stkl5Grenze3) * 0.45⌋ : ℤ) : ℚ)
      else ((⌊st0 + (zzx - taxConfig.stkl5Grenze2) * 0.42⌋ : ℤ) : ℚ)
    else st0
  let st2 : ℚ :=
    if taxConfig.stkl5Grenze1 < zzx then
      max st1 ((⌊calculateUp56Claimed taxConfig.stkl5Grenze1 taxConfig +
        (zzx - taxConfig.stkl5Grenze1) * 0.42⌋ : ℤ) : ℚ)
    else st1
  max 0 ((⌊st2⌋ : ℤ) : ℚ)

/-- Request with gross income 20223.54 (class I, default profile, additional
rate 2.9, no church tax, no extra expenses, no children, age 30). -/
def inputC5a : TaxInput where
  bruttoJahr := some 20223.54
  taxProfileId := none
  steuerklasse := Steuerklasse.I
  kirchensteuer := false
  kirchensteuerSatz := 0.09
  zusatzbeitrag := some 2.9
  werbungskosten := some 0
  kinderAnzahl := some 0
  alter := some 30

/-- The same request as `inputC5a` with gross income one cent higher. -/
def inputC5b : TaxInput where
  bruttoJahr := some 20223.55
  taxProfileId := none
  steuerklasse := Steuerklasse.I
  kirchensteuer := false
  kirchensteuerSatz := 0.09
  zusatzbeitrag := some 2.9
  werbungskosten := some 0
  kinderAnzahl := some 0
  alter := some 30

/-- Request used to instantiate the splitting theorem: class III, gross 50000. -/
def inputSplitting : TaxInput where
  bruttoJahr := some 50000
  taxProfileId := none
  steuerklasse := Steuerklasse.III
  kirchensteuer := false
  kirchensteuerSatz := 0.09
  zusatzbeitrag := some 3
  werbungskosten := some 0
  kinderAnzahl := some 0
  alter := some 30

/-- Request used to instantiate the bounds theorem: class I, gross 50000,
church tax enabled at rate 0.09. -/
def inputBounds : TaxInput where
  bruttoJahr := some 50000
  taxProfileId := none
  steuerklasse := Steuerklasse.I
  kirchensteuer := true
  kirchensteuerSatz := 0.09
  zusatzbeitrag := some 3
  werbungskosten := some 0
  kinderAnzahl := some 0
  alter := some 30

/-- Request used to instantiate the rounded-base invariant: class V, gross
50000. -/
def inputInvariant : TaxInput where
  bruttoJahr := some 50000
  taxProfileId := none
  steuerklasse := Steuerklasse.V
  kirchensteuer := false
  kirchensteuerSatz := 0.09
  zusatzbeitrag := some 3
  werbungskosten := some 0
  kinderAnzahl := some 0
  alter := some 30

/-- Request with a church-tax rate outside the two legally permitted values
(here negative), church tax enabled, and valid remaining fields. -/
def inputChurchOdd : TaxInput where
  bruttoJahr := some 50000
  taxProfileId := none
  steuerklasse := Steuerklasse.I
  kirchensteuer := true
  kirchensteuerSatz := -5
  zusatzbeitrag := some 3
  werbungskosten := some 0
  kinderAnzahl := some 0
  alter := some 30

/-- Request with a negative gross income, all other fields valid. -/
def inputNegative : TaxInput where
  bruttoJahr := some (-1)
  taxProfileId := none
  steuerklasse := Steuerklasse.I
  kirchensteuer := false
  kirchensteuerSatz := 0.09
  zusatzbeitrag := some 3
  werbungskosten := some 0
  kinderAnzahl := some 0
  alter := some 30

/-- Request with an additional health-insurance contribution rate of 300
percent, gross income 100, all validated fields non-negative. -/
def inputHugeZusatz : TaxInput where
  bruttoJahr := some 100
  taxProfileId := none
  steuerklasse := Steuerklasse.I
  kirchensteuer := false
  kirchensteuerSatz := 0.09
  zusatzbeitrag := some 300
  werbungskosten := some 0
  kinderAnzahl := some 0
  alter := some 30
end BruttoNetto

namespace BruttoNetto

theorem mathRound_le (q : ℚ) : mathRound q ≤ q + 1/2 :=
  Int.floor_le (q + 1/2)

theorem le_mathRound (q : ℚ) : q - 1/2 ≤ mathRound q := by
  have h := Int.lt_floor_add_one (q + 1/2)
  unfold mathRound
  linarith

theorem mathRound_nonneg {q : ℚ} (h : 0 ≤ q) : 0 ≤ mathRound q := by
  unfold mathRound
  exact_mod_cast Int.le_floor.mpr (by push_cast; linarith)

theorem mathRound_mono {a b : ℚ} (h : a ≤ b) : mathRound a ≤ mathRound b := by
  unfold mathRound
  exact_mod_cast Int.floor_le_floor (by linarith)

theorem mathRound_intCast (n : ℤ) : mathRound (n : ℚ) = n := by
  unfold mathRound
  rw [Int.floor_int_add]
  have : ⌊(1/2 : ℚ)⌋ = 0 := by
    rw [Int.floor_eq_zero_iff]
    constructor <;> norm_num
  rw [this]
  push_cast
  ring

theorem roundToCents_le (q : ℚ) : roundToCents q ≤ q + 1/200 := by
  unfold roundToCents
  have h := mathRound_le (q * 100)
  linarith

theorem le_roundToCents (q : ℚ) : q - 1/200 ≤ roundToCents q := by
  unfold roundToCents
  have h := le_mathRound (q * 100)
  linarith

theorem roundToCents_nonneg {q : ℚ} (h : 0 ≤ q) : 0 ≤ roundToCents q := by
  unfold roundToCents
  have := mathRound_nonneg (q := q * 100) (by linarith)
  linarith

theorem roundToCents_mono {a b : ℚ} (h : a ≤ b) : roundToCents a ≤ roundToCents b := by
  unfold roundToCents
  have := mathRound_mono (a := a * 100) (b := b * 100) (by linarith)
  linarith

theorem roundToCents_le_two_mul {q : ℚ} (h : 0 ≤ q) : roundToCents q ≤ 2 * q := by
  rcases le_or_lt (1/200 : ℚ) q with hq | hq
  · have := roundToCents_le q
    linarith
  · have h0 : ⌊q * 100 + 1/2⌋ = 0 := by
      rw [Int.floor_eq_zero_iff, Set.mem_Ico]
      constructor <;> linarith
    unfold roundToCents mathRound
    rw [h0]
    norm_num
    linarith

theorem roundToCents_cent (n : ℤ) : roundToCents ((n : ℚ) / 100) = (n : ℚ) / 100 := by
  unfold roundToCents mathRound
  have h1 : (n : ℚ) / 100 * 100 = (n : ℚ) := by field_simp
  rw [h1, Int.floor_int_add]
  have : ⌊(1/2 : ℚ)⌋ = 0 := by
    rw [Int.floor_eq_zero_iff]
    constructor <;> norm_num
  rw [this]
  push_cast
  ring

theorem roundToCents_zero : roundToCents 0 = 0 := by
  have := roundToCents_cent 0
  simpa using this

theorem calculateTarif_nonneg (zve : ℚ) (taxConfig : TaxConfig) :
    0 ≤ calculateTarif zve taxConfig :=
  le_max_left 0 _

theorem calculateTarif_cent (zve : ℚ) (taxConfig : TaxConfig) :
    ∃ n : ℤ, 0 ≤ n ∧ calculateTarif zve taxConfig = (n : ℚ) / 100 := by
  have key : ∀ c : ℤ, max 0 ((c : ℚ) / 100) = ((max 0 c : ℤ) : ℚ) / 100 := by
    intro c
    rcases le_total c 0 with h | h
    · have hc : ((c : ℚ)) / 100 ≤ 0 :=
        div_nonpos_of_nonpos_of_nonneg (by exact_mod_cast h) (by norm_num)
      rw [max_eq_left hc, max_eq_left h, Int.cast_zero, zero_div]
    · have hc : (0 : ℚ) ≤ (c : ℚ) / 100 :=
        div_nonneg (by exact_mod_cast h) (by norm_num)
      rw [max_eq_right hc, max_eq_right h]
  refine ⟨max 0 ⌊tarifRaw ((⌊zve⌋ : ℤ) : ℚ) taxConfig * 100 + 1/2⌋, le_max_left 0 _, ?_⟩
  unfold calculateTarif roundToCents mathRound
  exact key _

theorem roundToCents_two_mul_cent (n : ℤ) :
    roundToCents (2 * ((n : ℚ) / 100)) = 2 * ((n : ℚ) / 100) := by
  have h : 2 * ((n : ℚ) / 100) = ((2 * n : ℤ) : ℚ) / 100 := by
    push_cast
    ring
  rw [h, roundToCents_cent]

end BruttoNetto

namespace BruttoNetto

theorem TAX_PROFILES_good {id : String} {taxConfig : TaxConfig}
    (h : TAX_PROFILES id = some taxConfig) : goodConfig taxConfig := by
  unfold TAX_PROFILES at h
  split_ifs at h
  · injection h with h
    exact Or.inl h.symm
  · injection h with h
    exact Or.inr h.symm

theorem tarifRaw_nonneg {taxConfig : TaxConfig} (h : goodConfig taxConfig) (x : ℚ) :
    0 ≤ tarifRaw x taxConfig := by
  rcases h with rfl | rfl
  · simp only [tarifRaw, cfg2026current]
    split_ifs with h1 h2 h3 h4
    · exact le_refl 0
    · nlinarith
    · nlinarith
    · nlinarith
    · nlinarith
  · simp only [tarifRaw, cfg2026legacy]
    split_ifs with h1 h2 h3 h4
    · exact le_refl 0
    · nlinarith
    · nlinarith
    · nlinarith
    · nlinarith

theorem tarifRaw_le {taxConfig : TaxConfig} (h : goodConfig taxConfig) {x : ℚ} (hx : 0 ≤ x) :
    tarifRaw x taxConfig ≤ 0.45 * x := by
  rcases h with rfl | rfl
  · simp only [tarifRaw, cfg2026current]
    split_ifs with h1 h2 h3 h4 <;>
      first
        | linarith
        | nlinarith [mul_nonneg (by linarith : (0:ℚ) ≤ x - 12348)
            (by linarith : (0:ℚ) ≤ 17799 - x)]
        | nlinarith [mul_nonneg (by linarith : (0:ℚ) ≤ x - 17799)
            (by linarith : (0:ℚ) ≤ 69878 - x)]
  · simp only [tarifRaw, cfg2026legacy]
    split_ifs with h1 h2 h3 h4 <;>
      first
        | linarith
        | nlinarith [mul_nonneg (by linarith : (0:ℚ) ≤ x - 12348)
            (by linarith : (0:ℚ) ≤ 17443 - x)]
        | nlinarith [mul_nonneg (by linarith : (0:ℚ) ≤ x - 17443)
            (by linarith : (0:ℚ) ≤ 68480 - x)]

theorem tarifRaw_lipschitz {taxConfig : TaxConfig} (h : goodConfig taxConfig) {u v : ℚ}
    (h0 : 0 ≤ v) (huv : v ≤ u) (hu : u ≤ taxConfig.zone2End) :
    tarifRaw u taxConfig - tarifRaw v taxConfig ≤ 0.45 * (u - v) + 61 := by
  rcases h with rfl | rfl
  · simp only [tarifRaw, cfg2026current] at hu ⊢
    split_ifs with h1 h2 h3 h4 h5 h6 h7 h8 <;>
      first
        | linarith
        | nlinarith [mul_nonneg (by linarith : (0:ℚ) ≤ u - 12348)
            (by linarith : (0:ℚ) ≤ 17799 - u),
            mul_nonneg (by linarith : (0:ℚ) ≤ u - v)
            (by linarith : (0:ℚ) ≤ 35598 - u - v)]
        | nlinarith [mul_nonneg (by linarith : (0:ℚ) ≤ u - 17799)
            (by linarith : (0:ℚ) ≤ 69878 - u),
            mul_nonneg (by linarith : (0:ℚ) ≤ v - 12348)
            (by linarith : (0:ℚ) ≤ 17799 - v)]
        | nlinarith [mul_nonneg (by linarith : (0:ℚ) ≤ u - 17799)
            (by linarith : (0:ℚ) ≤ 69878 - u)]
        | nlinarith [mul_nonneg (by linarith : (0:ℚ) ≤ u - v)
            (by linarith : (0:ℚ) ≤ 139756 - u - v)]
  · simp only [tarifRaw, cfg2026legacy] at hu ⊢
    split_ifs with h1 h2 h3 h4 h5 h6 h7 h8 <;>
      first
        | linarith
        | nlinarith [mul_nonneg (by linarith : (0:ℚ) ≤ u - 12348)
            (by linarith : (0:ℚ) ≤ 17443 - u),
            mul_nonneg (by linarith : (0:ℚ) ≤ u - v)
            (by linarith : (0:ℚ) ≤ 34886 - u - v)]
        | nlinarith [mul_nonneg (by linarith : (0:ℚ) ≤ u - 17443)
            (by linarith : (0:ℚ) ≤ 68480 - u),
            mul_nonneg (by linarith : (0:ℚ) ≤ v - 12348)
            (by linarith : (0:ℚ) ≤ 17443 - v)]
        | nlinarith [mul_nonneg (by linarith : (0:ℚ) ≤ u - 17443)
            (by linarith : (0:ℚ) ≤ 68480 - u)]
        | nlinarith [mul_nonneg (by linarith : (0:ℚ) ≤ u - v)
            (by linarith : (0:ℚ) ≤ 136960 - u - v)]

theorem floor_q_le (q : ℚ) : ((⌊q⌋ : ℤ) : ℚ) ≤ q := Int.floor_le q

theorem floor_q_gt (q : ℚ) : q - 1 < ((⌊q⌋ : ℤ) : ℚ) := by
  have := Int.lt_floor_add_one q
  push_cast at this
  linarith

theorem floor_q_nonneg {q : ℚ} (h : 0 ≤ q) : 0 ≤ ((⌊q⌋ : ℤ) : ℚ) := by
  exact_mod_cast Int.floor_nonneg.mpr h

theorem floor_q_mono {a b : ℚ} (h : a ≤ b) : ((⌊a⌋ : ℤ) : ℚ) ≤ ((⌊b⌋ : ℤ) : ℚ) := by
  exact_mod_cast Int.floor_le_floor h

theorem goodConfig_grundfreibetrag {taxConfig : TaxConfig} (h : goodConfig taxConfig) :
    taxConfig.grundfreibetrag = 12348 := by
  rcases h with rfl | rfl <;> norm_num [cfg2026current, cfg2026legacy]

theorem goodConfig_zone2End {taxConfig : TaxConfig} (h : goodConfig taxConfig) :
    (43674 : ℚ) ≤ taxConfig.zone2End := by
  rcases h with rfl | rfl <;> norm_num [cfg2026current, cfg2026legacy]

theorem goodConfig_grenzen {taxConfig : TaxConfig} (h : goodConfig taxConfig) :
    taxConfig.stkl5Grenze1 = 14071 ∧ taxConfig.stkl5Grenze2 = 34939 ∧
      taxConfig.stkl5Grenze3 = 222260 := by
  rcases h with rfl | rfl <;> norm_num [cfg2026current, cfg2026legacy]

theorem goodConfig_rundung {taxConfig : TaxConfig} (h : goodConfig taxConfig) :
    taxConfig.vorsorgepauschaleRundung = 36 := by
  rcases h with rfl | rfl <;> norm_num [cfg2026current, cfg2026legacy]

theorem tarifRaw_zero {taxConfig : TaxConfig} {x : ℚ} (hx : x ≤ taxConfig.grundfreibetrag) :
    tarifRaw x taxConfig = 0 := by
  unfold tarifRaw
  rw [if_pos hx]

theorem calculateTarif_zero {taxConfig : TaxConfig} {zve : ℚ}
    (h : ((⌊zve⌋ : ℤ) : ℚ) ≤ taxConfig.grundfreibetrag) : calculateTarif zve taxConfig = 0 := by
  unfold calculateTarif
  rw [tarifRaw_zero h, roundToCents_zero]
  exact max_eq_left (le_refl 0)

theorem calculateTarif_le_raw {taxConfig : TaxConfig} (h : goodConfig taxConfig) (zve : ℚ) :
    calculateTarif zve taxConfig ≤ tarifRaw ((⌊zve⌋ : ℤ) : ℚ) taxConfig + 1/200 := by
  unfold calculateTarif
  apply max_le
  · have := tarifRaw_nonneg h ((⌊zve⌋ : ℤ) : ℚ)
    linarith
  · exact roundToCents_le _

theorem raw_le_calculateTarif (taxConfig : TaxConfig) (zve : ℚ) :
    tarifRaw ((⌊zve⌋ : ℤ) : ℚ) taxConfig - 1/200 ≤ calculateTarif zve taxConfig := by
  unfold calculateTarif
  have h1 := le_roundToCents (tarifRaw ((⌊zve⌋ : ℤ) : ℚ) taxConfig)
  have h2 := le_max_right (0 : ℚ) (roundToCents (tarifRaw ((⌊zve⌋ : ℤ) : ℚ) taxConfig))
  linarith

theorem calculateTarif_le {taxConfig : TaxConfig} (h : goodConfig taxConfig) {zve : ℚ}
    (hz : 0 ≤ zve) : calculateTarif zve taxConfig ≤ 0.45 * zve + 1/200 := by
  have h1 := calculateTarif_le_raw h zve
  have h2 := tarifRaw_le h (floor_q_nonneg hz)
  have h3 := floor_q_le zve
  linarith

theorem calculateUp56_le {taxConfig : TaxConfig} (h : goodConfig taxConfig) {zx : ℚ}
    (h0 : 0 ≤ zx) (hub : zx ≤ 34939) : calculateUp56 zx taxConfig ≤ 0.45 * zx + 123 := by
  unfold calculateUp56
  apply max_le
  · have hv0 : 0 ≤ ((⌊zx * 0.75⌋ : ℤ) : ℚ) := floor_q_nonneg (by linarith)
    have hvu : ((⌊zx * 0.75⌋ : ℤ) : ℚ) ≤ ((⌊zx * 1.25⌋ : ℤ) : ℚ) := floor_q_mono (by linarith)
    have huz : ((⌊zx * 1.25⌋ : ℤ) : ℚ) ≤ taxConfig.zone2End := by
      have h1 := floor_q_le (zx * 1.25)
      have h2 := goodConfig_zone2End h
      linarith
    have lip := tarifRaw_lipschitz h hv0 hvu huz
    have t1le := calculateTarif_le_raw h (zx * 1.25)
    have t2ge := raw_le_calculateTarif taxConfig (zx * 0.75)
    have hu1 := floor_q_le (zx * 1.25)
    have hv1 := floor_q_gt (zx * 0.75)
    linarith
  · have h1 := floor_q_le (zx * 0.14)
    linarith

theorem calculateUp56_le_small {taxConfig : TaxConfig} (h : goodConfig taxConfig) {zx : ℚ}
    (h0 : 0 ≤ zx) (hub : zx ≤ 9878) : calculateUp56 zx taxConfig ≤ 0.14 * zx := by
  unfold calculateUp56
  apply max_le
  · have h1 : calculateTarif (zx * 1.25) taxConfig = 0 := by
      apply calculateTarif_zero
      have h2 := floor_q_le (zx * 1.25)
      rw [goodConfig_grundfreibetrag h]
      linarith
    have h2 := calculateTarif_nonneg (zx * 0.75) taxConfig
    rw [h1]
    linarith
  · have h1 := floor_q_le (zx * 0.14)
    linarith

theorem calculateUp56_nonneg (zx : ℚ) (taxConfig : TaxConfig) (h0 : 0 ≤ zx) :
    0 ≤ calculateUp56 zx taxConfig := by
  unfold calculateUp56
  have h1 : (0 : ℤ) ≤ ⌊zx * 0.14⌋ := Int.floor_nonneg.mpr (by linarith)
  have h2 : (0 : ℚ) ≤ ((⌊zx * 0.14⌋ : ℤ) : ℚ) := by exact_mod_cast h1
  exact le_trans h2 (le_max_right _ _)

theorem calculateTarifClassFiveSix_nonneg (zve : ℚ) (taxConfig : TaxConfig) :
    0 ≤ calculateTarifClassFiveSix zve taxConfig :=
  le_max_left 0 _

theorem calculateTarifClassFiveSix_le {taxConfig : TaxConfig} (h : goodConfig taxConfig)
    {zve : ℚ} (h0 : 0 ≤ zve) :
    calculateTarifClassFiveSix zve taxConfig ≤ 0.45 * zve + 123 := by
  obtain ⟨hg1, hg2, hg3⟩ := goodConfig_grenzen h
  have hz0 : (0 : ℚ) ≤ ((⌊zve⌋ : ℤ) : ℚ) := floor_q_nonneg h0
  have hzle : ((⌊zve⌋ : ℤ) : ℚ) ≤ zve := floor_q_le zve
  have hmin0 : 0 ≤ min ((⌊zve⌋ : ℤ) : ℚ) taxConfig.stkl5Grenze2 := by
    rw [hg2]
    exact le_min hz0 (by norm_num)
  have hminle : min ((⌊zve⌋ : ℤ) : ℚ) taxConfig.stkl5Grenze2 ≤ 34939 := by
    rw [hg2]
    exact min_le_right _ _
  have hup := calculateUp56_le h hmin0 hminle
  have hupmin : calculateUp56 (min ((⌊zve⌋ : ℤ) : ℚ) taxConfig.stkl5Grenze2) taxConfig ≤
      0.45 * ((⌊zve⌋ : ℤ) : ℚ) + 123 := by
    have h1 : min ((⌊zve⌋ : ℤ) : ℚ) taxConfig.stkl5Grenze2 ≤ ((⌊zve⌋ : ℤ) : ℚ) :=
      min_le_left _ _
    linarith
  have hupg1 : calculateUp56 taxConfig.stkl5Grenze1 taxConfig ≤ 6454.95 := by
    rw [hg1]
    have := @calculateUp56_le taxConfig h 14071 (by norm_num) (by norm_num)
    linarith
  simp only [calculateTarifClassFiveSix]
  split_ifs with h1 h2 h3 h4 h5
  · have hm : min ((⌊zve⌋ : ℤ) : ℚ) taxConfig.stkl5Grenze2 = taxConfig.stkl5Grenze2 :=
      min_eq_right (le_of_lt h2)
    have hupb : calculateUp56 (min ((⌊zve⌋ : ℤ) : ℚ) taxConfig.stkl5Grenze2) taxConfig ≤
        15845.55 := by
      refine le_trans hup ?_
      rw [hm, hg2]
      norm_num
    refine max_le (by linarith) (le_trans (floor_q_le _) (max_le ?_ ?_))
    · exact le_trans (floor_q_le _) (by linarith)
    · exact le_trans (floor_q_le _) (by linarith)
  · have hm : min ((⌊zve⌋ : ℤ) : ℚ) taxConfig.stkl5Grenze2 = taxConfig.stkl5Grenze2 :=
      min_eq_right (le_of_lt h2)
    have hupb : calculateUp56 (min ((⌊zve⌋ : ℤ) : ℚ) taxConfig.stkl5Grenze2) taxConfig ≤
        15845.55 := by
      refine le_trans hup ?_
      rw [hm, hg2]
      norm_num
    refine max_le (by linarith) (le_trans (floor_q_le _) (max_le ?_ ?_))
    · exact le_trans (floor_q_le _) (by linarith)
    · exact le_trans (floor_q_le _) (by linarith)
  · refine max_le (by linarith) (le_trans (floor_q_le _) (max_le ?_ ?_))
    · linarith
    · exact le_trans (floor_q_le _) (by linarith)
  · linarith
  · linarith
  · refine max_le (by linarith) (le_trans (floor_q_le _) (by linarith))

theorem calculateTarifClassFiveSix_le_small {taxConfig : TaxConfig} (h : goodConfig taxConfig)
    {zve : ℚ} (h0 : 0 ≤ zve) (hub : zve ≤ 9878) :
    calculateTarifClassFiveSix zve taxConfig ≤ 0.14 * zve := by
  obtain ⟨hg1, hg2, _⟩ := goodConfig_grenzen h
  have hz0 : (0 : ℚ) ≤ ((⌊zve⌋ : ℤ) : ℚ) := floor_q_nonneg h0
  have hzle : ((⌊zve⌋ : ℤ) : ℚ) ≤ zve := floor_q_le zve
  have hc2 : ¬ taxConfig.stkl5Grenze2 < ((⌊zve⌋ : ℤ) : ℚ) := by
    rw [hg2]
    push_neg
    linarith
  have hc1 : ¬ taxConfig.stkl5Grenze1 < ((⌊zve⌋ : ℤ) : ℚ) := by
    rw [hg1]
    push_neg
    linarith
  have hm : min ((⌊zve⌋ : ℤ) : ℚ) taxConfig.stkl5Grenze2 = ((⌊zve⌋ : ℤ) : ℚ) := by
    rw [hg2]
    exact min_eq_left (by linarith)
  simp only [calculateTarifClassFiveSix]
  rw [if_neg hc1, if_neg hc2, hm]
  have hsmall := calculateUp56_le_small h hz0 (by linarith)
  refine max_le (by linarith) (le_trans (floor_q_le _) (by linarith))

theorem calculateSplittingTarif_eq (zve : ℚ) (taxConfig : TaxConfig) :
    calculateSplittingTarif zve taxConfig = 2 * calculateTarif (zve / 2) taxConfig := by
  obtain ⟨n, _, hn⟩ := calculateTarif_cent (zve / 2) taxConfig
  unfold calculateSplittingTarif
  rw [hn, roundToCents_two_mul_cent]

theorem calculateSplittingTarif_nonneg (zve : ℚ) (taxConfig : TaxConfig) :
    0 ≤ calculateSplittingTarif zve taxConfig := by
  rw [calculateSplittingTarif_eq]
  have := calculateTarif_nonneg (zve / 2) taxConfig
  linarith

theorem calculateSplittingTarif_le {taxConfig : TaxConfig} (h : goodConfig taxConfig) {zve : ℚ}
    (hz : 0 ≤ zve) : calculateSplittingTarif zve taxConfig ≤ 0.45 * zve + 1/100 := by
  rw [calculateSplittingTarif_eq]
  have := @calculateTarif_le taxConfig h (zve / 2) (by linarith)
  linarith

theorem lohnsteuerFor_nonneg (taxConfig : TaxConfig) (steuerklasse : Steuerklasse) (z : ℚ) :
    0 ≤ lohnsteuerFor taxConfig steuerklasse z := by
  cases steuerklasse <;>
    first
      | exact calculateTarif_nonneg z taxConfig
      | exact calculateSplittingTarif_nonneg z taxConfig
      | exact calculateTarifClassFiveSix_nonneg z taxConfig

theorem lohnsteuerFor_le {taxConfig : TaxConfig} (h : goodConfig taxConfig)
    (steuerklasse : Steuerklasse) {z : ℚ} (hz : 0 ≤ z) :
    lohnsteuerFor taxConfig steuerklasse z ≤ 0.45 * z + 123 := by
  cases steuerklasse <;>
    simp only [lohnsteuerFor] <;>
    first
      | (have hb := calculateTarif_le h hz; linarith)
      | (have hb := calculateSplittingTarif_le h hz; linarith)
      | exact calculateTarifClassFiveSix_le h hz

theorem lohnsteuerFor_le_small {taxConfig : TaxConfig} (h : goodConfig taxConfig)
    (steuerklasse : Steuerklasse) {z : ℚ} (h0 : 0 ≤ z) (hub : z ≤ 9878) :
    lohnsteuerFor taxConfig steuerklasse z ≤ 0.14 * z := by
  have hgf := goodConfig_grundfreibetrag h
  have htz : calculateTarif z taxConfig = 0 := by
    apply calculateTarif_zero
    have := floor_q_le z
    rw [hgf]
    linarith
  have htz2 : calculateTarif (z / 2) taxConfig = 0 := by
    apply calculateTarif_zero
    have := floor_q_le (z / 2)
    rw [hgf]
    linarith
  cases steuerklasse <;>
    simp only [lohnsteuerFor] <;>
    first
      | (rw [htz]; linarith)
      | (rw [calculateSplittingTarif_eq, htz2]; linarith)
      | exact calculateTarifClassFiveSix_le_small h h0 hub

theorem goodConfig_constants {taxConfig : TaxConfig} (h : goodConfig taxConfig) :
    taxConfig.werbungskostenPauschbetrag = 1230 ∧
      taxConfig.sonderausgabenPauschbetrag = 36 ∧
      taxConfig.entlastungsbetragAlleinerziehende = 4260 ∧
      taxConfig.rvBeitragssatz = 0.186 ∧ taxConfig.rvBeitragsbemessungsgrenze = 101400 ∧
      taxConfig.avBeitragssatz = 0.026 ∧ taxConfig.avBeitragsbemessungsgrenze = 101400 ∧
      taxConfig.kvBeitragssatz = 0.146 ∧ taxConfig.kvBeitragsbemessungsgrenze = 69750 ∧
      taxConfig.pvBeitragsbemessungsgrenze = 69750 ∧
      taxConfig.pvArbeitnehmerAnteilBasis = 0.018 ∧
      taxConfig.pvKinderlosenzuschlag = 0.006 ∧ taxConfig.pvKinderabschlag = 0.0025 ∧
      taxConfig.soliFreigrenze = 20350 ∧ taxConfig.soliMinderungssatz = 0.119 ∧
      taxConfig.soliSatz = 0.055 ∧ taxConfig.avVorsorgeFaktor = 0.235 := by
  rcases h with rfl | rfl <;> norm_num [cfg2026current, cfg2026legacy]

theorem calculateSoli_nonneg {taxConfig : TaxConfig} (h : goodConfig taxConfig) {lst : ℚ}
    (h0 : 0 ≤ lst) : 0 ≤ calculateSoli lst taxConfig := by
  obtain ⟨_, _, _, _, _, _, _, _, _, _, _, _, _, hfg, hms, hss, _⟩ := goodConfig_constants h
  unfold calculateSoli
  split_ifs with hc
  · exact le_refl 0
  · push_neg at hc
    apply roundToCents_nonneg
    apply le_min
    · rw [hss]
      nlinarith
    · rw [hms, hfg]
      rw [hfg] at hc
      nlinarith

theorem calculateSoli_le {taxConfig : TaxConfig} (h : goodConfig taxConfig) {lst : ℚ}
    (h0 : 0 ≤ lst) : calculateSoli lst taxConfig ≤ 0.055 * lst + 1/200 := by
  obtain ⟨_, _, _, _, _, _, _, _, _, _, _, _, _, hfg, hms, hss, _⟩ := goodConfig_constants h
  unfold calculateSoli
  split_ifs with hc
  · nlinarith
  · have h1 : min (lst * taxConfig.soliSatz)
        ((lst - taxConfig.soliFreigrenze) * taxConfig.soliMinderungssatz) ≤
        lst * taxConfig.soliSatz := min_le_left _ _
    have h2 := roundToCents_mono h1
    have h3 := roundToCents_le (lst * taxConfig.soliSatz)
    have h4 : lst * taxConfig.soliSatz = 0.055 * lst := by
      rw [hss]
      ring
    linarith

theorem calculateKirchensteuer_nonneg {lst satz : ℚ} (enabled : Bool) (h0 : 0 ≤ lst)
    (hs : 0 ≤ satz) : 0 ≤ calculateKirchensteuer lst enabled satz := by
  unfold calculateKirchensteuer
  split_ifs
  · exact roundToCents_nonneg (mul_nonneg h0 hs)
  · exact le_refl 0

theorem calculateKirchensteuer_le {lst satz : ℚ} (enabled : Bool) (h0 : 0 ≤ lst)
    (hs : satz ≤ 0.09) : calculateKirchensteuer lst enabled satz ≤ 0.09 * lst + 1/200 := by
  unfold calculateKirchensteuer
  split_ifs
  · have h1 : lst * satz ≤ lst * 0.09 := mul_le_mul_of_nonneg_left hs h0
    have h2 := roundToCents_le (lst * satz)
    linarith
  · nlinarith

theorem calculatePVSatz_bounds {taxConfig : TaxConfig} (h : goodConfig taxConfig)
    (alter kinderAnzahl : ℚ) :
    0.017 ≤ calculatePVSatz alter kinderAnzahl taxConfig ∧
      calculatePVSatz alter kinderAnzahl taxConfig ≤ 0.024 := by
  obtain ⟨_, _, _, _, _, _, _, _, _, _, hpvb, hpvk, hpva, _, _, _, _⟩ := goodConfig_constants h
  constructor
  · exact le_max_left _ _
  · apply max_le (by norm_num)
    have h1 : (if 23 ≤ alter ∧ kinderAnzahl = 0 then taxConfig.pvKinderlosenzuschlag else 0) ≤
        0.006 := by
      split_ifs
      · rw [hpvk]
      · norm_num
    have h2 : 0 ≤ max 0 (min (kinderAnzahl - 1) 4) * taxConfig.pvKinderabschlag := by
      apply mul_nonneg (le_max_left 0 _)
      rw [hpva]
      norm_num
    rw [hpvb]
    linarith


theorem rentenversicherungOf_bounds {taxConfig : TaxConfig} (h : goodConfig taxConfig)
    {brutto : ℚ} (hb : 0 ≤ brutto) :
    0 ≤ rentenversicherungOf brutto taxConfig ∧
      rentenversicherungOf brutto taxConfig ≤ 0.093 * brutto + 1/200 ∧
      rentenversicherungOf brutto taxConfig ≤ 0.186 * brutto := by
  obtain ⟨_, _, _, hrs, hrg, _⟩ := goodConfig_constants h
  have h0 : 0 ≤ min brutto taxConfig.rvBeitragsbemessungsgrenze :=
    le_min hb (by rw [hrg]; norm_num)
  have hraw : min brutto taxConfig.rvBeitragsbemessungsgrenze *
      (taxConfig.rvBeitragssatz / 2) ≤ brutto * 0.093 := by
    rw [hrs]
    have := min_le_left brutto taxConfig.rvBeitragsbemessungsgrenze
    nlinarith
  have hraw0 : 0 ≤ min brutto taxConfig.rvBeitragsbemessungsgrenze *
      (taxConfig.rvBeitragssatz / 2) := by
    rw [hrs]
    nlinarith
  unfold rentenversicherungOf
  have h1 := le_trans (roundToCents_mono hraw) (roundToCents_le _)
  have h2 := le_trans (roundToCents_mono hraw) (roundToCents_le_two_mul (by nlinarith))
  exact ⟨roundToCents_nonneg hraw0, by linarith, by linarith⟩

theorem arbeitslosenversicherungOf_bounds {taxConfig : TaxConfig} (h : goodConfig taxConfig)
    {brutto : ℚ} (hb : 0 ≤ brutto) :
    0 ≤ arbeitslosenversicherungOf brutto taxConfig ∧
      arbeitslosenversicherungOf brutto taxConfig ≤ 0.013 * brutto + 1/200 ∧
      arbeitslosenversicherungOf brutto taxConfig ≤ 0.026 * brutto := by
  obtain ⟨_, _, _, _, _, has, hag, _⟩ := goodConfig_constants h
  have h0 : 0 ≤ min brutto taxConfig.avBeitragsbemessungsgrenze :=
    le_min hb (by rw [hag]; norm_num)
  have hraw : min brutto taxConfig.avBeitragsbemessungsgrenze *
      (taxConfig.avBeitragssatz / 2) ≤ brutto * 0.013 := by
    rw [has]
    have := min_le_left brutto taxConfig.avBeitragsbemessungsgrenze
    nlinarith
  have hraw0 : 0 ≤ min brutto taxConfig.avBeitragsbemessungsgrenze *
      (taxConfig.avBeitragssatz / 2) := by
    rw [has]
    nlinarith
  unfold arbeitslosenversicherungOf
  have h1 := le_trans (roundToCents_mono hraw) (roundToCents_le _)
  have h2 := le_trans (roundToCents_mono hraw) (roundToCents_le_two_mul (by nlinarith))
  exact ⟨roundToCents_nonneg hraw0, by linarith, by linarith⟩

theorem krankenversicherungOf_bounds {taxConfig : TaxConfig} (h : goodConfig taxConfig)
    {brutto zusatzbeitrag : ℚ} (hb : 0 ≤ brutto) (hz0 : 0 ≤ zusatzbeitrag)
    (hz6 : zusatzbeitrag ≤ 6) :
    0 ≤ krankenversicherungOf brutto zusatzbeitrag taxConfig ∧
      krankenversicherungOf brutto zusatzbeitrag taxConfig ≤ 0.103 * brutto + 1/200 ∧
      krankenversicherungOf brutto zusatzbeitrag taxConfig ≤ 0.206 * brutto := by
  obtain ⟨_, _, _, _, _, _, _, hks, hkg, _⟩ := goodConfig_constants h
  have h0 : 0 ≤ min brutto taxConfig.kvBeitragsbemessungsgrenze :=
    le_min hb (by rw [hkg]; norm_num)
  have hsatz0 : 0 ≤ taxConfig.kvBeitragssatz / 2 + zusatzbeitrag / 100 / 2 := by
    rw [hks]
    linarith
  have hsatz1 : taxConfig.kvBeitragssatz / 2 + zusatzbeitrag / 100 / 2 ≤ 0.103 := by
    rw [hks]
    linarith
  have hraw : min brutto taxConfig.kvBeitragsbemessungsgrenze *
      (taxConfig.kvBeitragssatz / 2 + zusatzbeitrag / 100 / 2) ≤ brutto * 0.103 := by
    have := min_le_left brutto taxConfig.kvBeitragsbemessungsgrenze
    nlinarith
  have hraw0 : 0 ≤ min brutto taxConfig.kvBeitragsbemessungsgrenze *
      (taxConfig.kvBeitragssatz / 2 + zusatzbeitrag / 100 / 2) := mul_nonneg h0 hsatz0
  unfold krankenversicherungOf
  have h1 := le_trans (roundToCents_mono hraw) (roundToCents_le _)
  have h2 := le_trans (roundToCents_mono hraw) (roundToCents_le_two_mul (by nlinarith))
  exact ⟨roundToCents_nonneg hraw0, by linarith, by linarith⟩

theorem pflegeversicherungOf_bounds {taxConfig : TaxConfig} (h : goodConfig taxConfig)
    {brutto : ℚ} (alter kinderAnzahl : ℚ) (hb : 0 ≤ brutto) :
    0 ≤ pflegeversicherungOf brutto alter kinderAnzahl taxConfig ∧
      pflegeversicherungOf brutto alter kinderAnzahl taxConfig ≤ 0.024 * brutto + 1/200 ∧
      pflegeversicherungOf brutto alter kinderAnzahl taxConfig ≤ 0.048 * brutto := by
  obtain ⟨_, _, _, _, _, _, _, _, _, hpg, _⟩ := goodConfig_constants h
  obtain ⟨hs1, hs2⟩ := calculatePVSatz_bounds h alter kinderAnzahl
  have h0 : 0 ≤ min brutto taxConfig.pvBeitragsbemessungsgrenze :=
    le_min hb (by rw [hpg]; norm_num)
  have hraw : min brutto taxConfig.pvBeitragsbemessungsgrenze *
      calculatePVSatz alter kinderAnzahl taxConfig ≤ brutto * 0.024 := by
    have := min_le_left brutto taxConfig.pvBeitragsbemessungsgrenze
    nlinarith
  have hraw0 : 0 ≤ min brutto taxConfig.pvBeitragsbemessungsgrenze *
      calculatePVSatz alter kinderAnzahl taxConfig := mul_nonneg h0 (by linarith)
  unfold pflegeversicherungOf
  have h1 := le_trans (roundToCents_mono hraw) (roundToCents_le _)
  have h2 := le_trans (roundToCents_mono hraw) (roundToCents_le_two_mul (by nlinarith))
  exact ⟨roundToCents_nonneg hraw0, by linarith, by linarith⟩

theorem vorsorgepauschale_nonneg {taxConfig : TaxConfig} (h : goodConfig taxConfig)
    {rv av kv pv : ℚ} (h1 : 0 ≤ rv) (h2 : 0 ≤ av) (h3 : 0 ≤ kv) (h4 : 0 ≤ pv) :
    0 ≤ calculateVorsorgepauschale rv av kv pv taxConfig := by
  obtain ⟨_, _, _, _, _, _, _, _, _, _, _, _, _, _, _, _, hvf⟩ := goodConfig_constants h
  unfold calculateVorsorgepauschale
  apply mathRound_nonneg
  rw [hvf]
  nlinarith

theorem roundTo36_spec {taxConfig : TaxConfig} (h : goodConfig taxConfig) {zve : ℚ}
    (h0 : 0 ≤ zve) :
    0 ≤ roundTo36 zve taxConfig ∧ roundTo36 zve taxConfig ≤ zve ∧
      ∃ k : ℤ, 0 ≤ k ∧ roundTo36 zve taxConfig = 36 * k := by
  have hr := goodConfig_rundung h
  unfold roundTo36
  rw [hr]
  have h1 : (0 : ℤ) ≤ ⌊zve / 36⌋ := Int.floor_nonneg.mpr (by positivity)
  have h2 : (0 : ℚ) ≤ ((⌊zve / 36⌋ : ℤ) : ℚ) := by exact_mod_cast h1
  have h3 : ((⌊zve / 36⌋ : ℤ) : ℚ) ≤ zve / 36 := Int.floor_le _
  refine ⟨by linarith, by linarith, ⟨⌊zve / 36⌋, h1, by ring⟩⟩

theorem effectiveWerbungskosten_nonneg {taxConfig : TaxConfig} (h : goodConfig taxConfig)
    (steuerklasse : Steuerklasse) (werbungskosten : ℚ) :
    0 ≤ effectiveWerbungskosten taxConfig steuerklasse werbungskosten := by
  obtain ⟨hwk, _⟩ := goodConfig_constants h
  unfold effectiveWerbungskosten
  split_ifs
  · exact le_refl 0
  · refine le_trans ?_ (le_max_left _ _)
    rw [hwk]
    norm_num

theorem effectiveSonderausgaben_nonneg {taxConfig : TaxConfig} (h : goodConfig taxConfig)
    (steuerklasse : Steuerklasse) :
    0 ≤ effectiveSonderausgaben taxConfig steuerklasse := by
  obtain ⟨_, hsa, _⟩ := goodConfig_constants h
  unfold effectiveSonderausgaben
  split_ifs
  · exact le_refl 0
  · rw [hsa]
    norm_num

theorem zvERohOf_bounds {taxConfig : TaxConfig} (h : goodConfig taxConfig)
    (steuerklasse : Steuerklasse) {bruttoJahr werbungskosten vorsorgepauschale : ℚ}
    (hb : 0 ≤ bruttoJahr) (hvp : 0 ≤ vorsorgepauschale) :
    0 ≤ zvERohOf taxConfig steuerklasse bruttoJahr werbungskosten vorsorgepauschale ∧
      zvERohOf taxConfig steuerklasse bruttoJahr werbungskosten vorsorgepauschale ≤
        bruttoJahr := by
  obtain ⟨_, _, hent, _⟩ := goodConfig_constants h
  have hW := effectiveWerbungskosten_nonneg h steuerklasse werbungskosten
  have hS := effectiveSonderausgaben_nonneg h steuerklasse
  have hE : 0 ≤ (if steuerklasse = Steuerklasse.II then
      taxConfig.entlastungsbetragAlleinerziehende else 0) := by
    split_ifs
    · rw [hent]
      norm_num
    · exact le_refl 0
  exact ⟨le_max_left 0 _, max_le hb (by linarith)⟩

theorem calculateKirchensteuer_zero (enabled : Bool) (satz : ℚ) :
    calculateKirchensteuer 0 enabled satz = 0 := by
  unfold calculateKirchensteuer
  split_ifs
  · rw [zero_mul, roundToCents_zero]
  · rfl

theorem calculateSoli_zero_of_le {taxConfig : TaxConfig} (h : goodConfig taxConfig) {lst : ℚ}
    (hle : lst ≤ 20350) : calculateSoli lst taxConfig = 0 := by
  obtain ⟨_, _, _, _, _, _, _, _, _, _, _, _, _, hfg, _⟩ := goodConfig_constants h
  unfold calculateSoli
  rw [if_pos]
  rw [hfg]
  exact hle

section ComputeResultFields

variable (taxConfig : TaxConfig) (resolvedTaxProfileId : String)
variable (steuerklasse : Steuerklasse) (kirchensteuer : Bool)
variable (kirchensteuerSatz bruttoJahr zusatzbeitrag werbungskosten kinderAnzahl alter : ℚ)

theorem computeResult_bruttoJahr :
    (computeResult taxConfig resolvedTaxProfileId steuerklasse kirchensteuer kirchensteuerSatz
      bruttoJahr zusatzbeitrag werbungskosten kinderAnzahl alter).bruttoJahr = bruttoJahr := rfl

theorem computeResult_taxProfileId :
    (computeResult taxConfig resolvedTaxProfileId steuerklasse kirchensteuer kirchensteuerSatz
      bruttoJahr zusatzbeitrag werbungskosten kinderAnzahl alter).taxProfileId =
      resolvedTaxProfileId := rfl

theorem computeResult_steuerklasse :
    (computeResult taxConfig resolvedTaxProfileId steuerklasse kirchensteuer kirchensteuerSatz
      bruttoJahr zusatzbeitrag werbungskosten kinderAnzahl alter).steuerklasse =
      steuerklasse := rfl

theorem computeResult_rentenversicherung :
    (computeResult taxConfig resolvedTaxProfileId steuerklasse kirchensteuer kirchensteuerSatz
      bruttoJahr zusatzbeitrag werbungskosten kinderAnzahl alter).rentenversicherung =
      rentenversicherungOf bruttoJahr taxConfig := rfl

theorem computeResult_arbeitslosenversicherung :
    (computeResult taxConfig resolvedTaxProfileId steuerklasse kirchensteuer kirchensteuerSatz
      bruttoJahr zusatzbeitrag werbungskosten kinderAnzahl alter).arbeitslosenversicherung =
      arbeitslosenversicherungOf bruttoJahr taxConfig := rfl

theorem computeResult_krankenversicherung :
    (computeResult taxConfig resolvedTaxProfileId steuerklasse kirchensteuer kirchensteuerSatz
      bruttoJahr zusatzbeitrag werbungskosten kinderAnzahl alter).krankenversicherung =
      krankenversicherungOf bruttoJahr zusatzbeitrag taxConfig := rfl

theorem computeResult_pflegeversicherung :
    (computeResult taxConfig resolvedTaxProfileId steuerklasse kirchensteuer kirchensteuerSatz
      bruttoJahr zusatzbeitrag werbungskosten kinderAnzahl alter).pflegeversicherung =
      pflegeversicherungOf bruttoJahr alter kinderAnzahl taxConfig := rfl

theorem computeResult_gesamtSozialabgaben :
    (computeResult taxConfig resolvedTaxProfileId steuerklasse kirchensteuer kirchensteuerSatz
      bruttoJahr zusatzbeitrag werbungskosten kinderAnzahl alter).gesamtSozialabgaben =
      roundToCents (rentenversicherungOf bruttoJahr taxConfig +
        arbeitslosenversicherungOf bruttoJahr taxConfig +
        krankenversicherungOf bruttoJahr zusatzbeitrag taxConfig +
        pflegeversicherungOf bruttoJahr alter kinderAnzahl taxConfig) := rfl

theorem computeResult_vorsorgepauschale :
    (computeResult taxConfig resolvedTaxProfileId steuerklasse kirchensteuer kirchensteuerSatz
      bruttoJahr zusatzbeitrag werbungskosten kinderAnzahl alter).vorsorgepauschale =
      calculateVorsorgepauschale (rentenversicherungOf bruttoJahr taxConfig)
        (arbeitslosenversicherungOf bruttoJahr taxConfig)
        (krankenversicherungOf bruttoJahr zusatzbeitrag taxConfig)
        (pflegeversicherungOf bruttoJahr alter kinderAnzahl taxConfig) taxConfig := rfl

theorem computeResult_werbungskostenPauschbetrag :
    (computeResult taxConfig resolvedTaxProfileId steuerklasse kirchensteuer kirchensteuerSatz
      bruttoJahr zusatzbeitrag werbungskosten kinderAnzahl alter).werbungskostenPauschbetrag =
      effectiveWerbungskosten taxConfig steuerklasse werbungskosten := rfl

theorem computeResult_sonderausgabenPauschbetrag :
    (computeResult taxConfig resolvedTaxProfileId steuerklasse kirchensteuer kirchensteuerSatz
      bruttoJahr zusatzbeitrag werbungskosten kinderAnzahl alter).sonderausgabenPauschbetrag =
      effectiveSonderausgaben taxConfig steuerklasse := rfl

theorem computeResult_zuVersteuerndesEinkommen :
    (computeResult taxConfig resolvedTaxProfileId steuerklasse kirchensteuer kirchensteuerSatz
      bruttoJahr zusatzbeitrag werbungskosten kinderAnzahl alter).zuVersteuerndesEinkommen =
      zvERohOf taxConfig steuerklasse bruttoJahr werbungskosten
        (calculateSozialabgaben bruttoJahr zusatzbeitrag alter kinderAnzahl
          taxConfig).vorsorgepauschale := rfl

theorem computeResult_zvEForLohnsteuer :
    (computeResult taxConfig resolvedTaxProfileId steuerklasse kirchensteuer kirchensteuerSatz
      bruttoJahr zusatzbeitrag werbungskosten kinderAnzahl alter).zvEForLohnsteuer =
      roundTo36 (zvERohOf taxConfig steuerklasse bruttoJahr werbungskosten
        (calculateSozialabgaben bruttoJahr zusatzbeitrag alter kinderAnzahl
          taxConfig).vorsorgepauschale) taxConfig := rfl

theorem computeResult_lohnsteuer :
    (computeResult taxConfig resolvedTaxProfileId steuerklasse kirchensteuer kirchensteuerSatz
      bruttoJahr zusatzbeitrag werbungskosten kinderAnzahl alter).lohnsteuer =
      lohnsteuerFor taxConfig steuerklasse
        (roundTo36 (zvERohOf taxConfig steuerklasse bruttoJahr werbungskosten
          (calculateSozialabgaben bruttoJahr zusatzbeitrag alter kinderAnzahl
            taxConfig).vorsorgepauschale) taxConfig) := rfl

theorem computeResult_solidaritaetszuschlag :
    (computeResult taxConfig resolvedTaxProfileId steuerklasse kirchensteuer kirchensteuerSatz
      bruttoJahr zusatzbeitrag werbungskosten kinderAnzahl alter).solidaritaetszuschlag =
      calculateSoli ((computeResult taxConfig resolvedTaxProfileId steuerklasse kirchensteuer
        kirchensteuerSatz bruttoJahr zusatzbeitrag werbungskosten kinderAnzahl
        alter).lohnsteuer) taxConfig := rfl

theorem computeResult_kirchensteuer :
    (computeResult taxConfig resolvedTaxProfileId steuerklasse kirchensteuer kirchensteuerSatz
      bruttoJahr zusatzbeitrag werbungskosten kinderAnzahl alter).kirchensteuer =
      calculateKirchensteuer ((computeResult taxConfig resolvedTaxProfileId steuerklasse
        kirchensteuer kirchensteuerSatz bruttoJahr zusatzbeitrag werbungskosten kinderAnzahl
        alter).lohnsteuer) kirchensteuer kirchensteuerSatz := rfl

theorem computeResult_gesamtSteuern :
    (computeResult taxConfig resolvedTaxProfileId steuerklasse kirchensteuer kirchensteuerSatz
      bruttoJahr zusatzbeitrag werbungskosten kinderAnzahl alter).gesamtSteuern =
      (computeResult taxConfig resolvedTaxProfileId steuerklasse kirchensteuer kirchensteuerSatz
        bruttoJahr zusatzbeitrag werbungskosten kinderAnzahl alter).lohnsteuer +
      (computeResult taxConfig resolvedTaxProfileId steuerklasse kirchensteuer kirchensteuerSatz
        bruttoJahr zusatzbeitrag werbungskosten kinderAnzahl alter).solidaritaetszuschlag +
      (computeResult taxConfig resolvedTaxProfileId steuerklasse kirchensteuer kirchensteuerSatz
        bruttoJahr zusatzbeitrag werbungskosten kinderAnzahl alter).kirchensteuer := rfl

theorem computeResult_nettoJahr :
    (computeResult taxConfig resolvedTaxProfileId steuerklasse kirchensteuer kirchensteuerSatz
      bruttoJahr zusatzbeitrag werbungskosten kinderAnzahl alter).nettoJahr =
      roundToCents (bruttoJahr -
        ((computeResult taxConfig resolvedTaxProfileId steuerklasse kirchensteuer
          kirchensteuerSatz bruttoJahr zusatzbeitrag werbungskosten kinderAnzahl
          alter).gesamtSteuern +
        (computeResult taxConfig resolvedTaxProfileId steuerklasse kirchensteuer
          kirchensteuerSatz bruttoJahr zusatzbeitrag werbungskosten kinderAnzahl
          alter).gesamtSozialabgaben)) := rfl

end ComputeResultFields

theorem deductions_le {taxConfig : TaxConfig} (h : goodConfig taxConfig)
    (steuerklasse : Steuerklasse) (kflag : Bool) {ksatz b zve z36 ges : ℚ}
    (hb : 0 ≤ b) (hks0 : 0 ≤ ksatz) (hks9 : ksatz ≤ 0.09)
    (hges0 : 0 ≤ ges) (hges_small : ges ≤ 0.932 * b) (hges_big : ges ≤ 0.233 * b + 1/40)
    (h360 : 0 ≤ z36) (h36le : z36 ≤ zve) (hzveb : zve ≤ b)
    (hk36 : ∃ k : ℤ, 0 ≤ k ∧ z36 = 36 * k) :
    lohnsteuerFor taxConfig steuerklasse z36 +
      calculateSoli (lohnsteuerFor taxConfig steuerklasse z36) taxConfig +
      calculateKirchensteuer (lohnsteuerFor taxConfig steuerklasse z36) kflag ksatz +
      ges ≤ b := by
  obtain ⟨k, hk0, hk⟩ := hk36
  have hlst0 := lohnsteuerFor_nonneg taxConfig steuerklasse z36
  rcases eq_or_ne z36 0 with hzz | hzz
  · subst hzz
    have hlstz : lohnsteuerFor taxConfig steuerklasse 0 = 0 := by
      apply le_antisymm _ hlst0
      have := lohnsteuerFor_le_small h steuerklasse h360 (by norm_num)
      linarith
    rw [hlstz, calculateSoli_zero_of_le h (by norm_num), calculateKirchensteuer_zero]
    linarith
  · have hkne : k ≠ 0 := by
      intro hke
      apply hzz
      rw [hk, hke]
      norm_num
    have hk1 : (1 : ℤ) ≤ k := by omega
    have h36ge : (36 : ℚ) ≤ z36 := by
      rw [hk]
      have h1 : (1 : ℚ) ≤ (k : ℚ) := by exact_mod_cast hk1
      linarith
    have hb36 : (36 : ℚ) ≤ b := by linarith
    rcases le_or_lt z36 9878 with hs | hbig
    · have hlsts := lohnsteuerFor_le_small h steuerklasse h360 hs
      have hsoliz : calculateSoli (lohnsteuerFor taxConfig steuerklasse z36) taxConfig = 0 :=
        calculateSoli_zero_of_le h (by linarith)
      have hkirche := calculateKirchensteuer_le kflag hlst0 hks9
      rw [hsoliz]
      linarith
    · have hlstb := lohnsteuerFor_le h steuerklasse h360
      have hsoli := calculateSoli_le h hlst0
      have hkirche := calculateKirchensteuer_le kflag hlst0 hks9
      linarith

theorem sozialabgaben_vorsorgepauschale (brutto zusatzbeitrag alter kinderAnzahl : ℚ)
    (taxConfig : TaxConfig) :
    (calculateSozialabgaben brutto zusatzbeitrag alter kinderAnzahl
        taxConfig).vorsorgepauschale =
      calculateVorsorgepauschale (rentenversicherungOf brutto taxConfig)
        (arbeitslosenversicherungOf brutto taxConfig)
        (krankenversicherungOf brutto zusatzbeitrag taxConfig)
        (pflegeversicherungOf brutto alter kinderAnzahl taxConfig) taxConfig := rfl

theorem computeResult_bounds {taxConfig : TaxConfig} (h : goodConfig taxConfig)
    (resolvedTaxProfileId : String) (steuerklasse : Steuerklasse) (kirchensteuer : Bool)
    {kirchensteuerSatz bruttoJahr zusatzbeitrag werbungskosten kinderAnzahl alter : ℚ}
    (hb : 0 ≤ bruttoJahr) (hz0 : 0 ≤ zusatzbeitrag) (hz6 : zusatzbeitrag ≤ 6)
    (hks0 : 0 ≤ kirchensteuerSatz) (hks9 : kirchensteuerSatz ≤ 0.09) :
    0 ≤ (computeResult taxConfig resolvedTaxProfileId steuerklasse kirchensteuer
      kirchensteuerSatz bruttoJahr zusatzbeitrag werbungskosten kinderAnzahl
      alter).lohnsteuer ∧
    0 ≤ (computeResult taxConfig resolvedTaxProfileId steuerklasse kirchensteuer
      kirchensteuerSatz bruttoJahr zusatzbeitrag werbungskosten kinderAnzahl
      alter).rentenversicherung ∧
    0 ≤ (computeResult taxConfig resolvedTaxProfileId steuerklasse kirchensteuer
      kirchensteuerSatz bruttoJahr zusatzbeitrag werbungskosten kinderAnzahl
      alter).arbeitslosenversicherung ∧
    0 ≤ (computeResult taxConfig resolvedTaxProfileId steuerklasse kirchensteuer
      kirchensteuerSatz bruttoJahr zusatzbeitrag werbungskosten kinderAnzahl
      alter).krankenversicherung ∧
    0 ≤ (computeResult taxConfig resolvedTaxProfileId steuerklasse kirchensteuer
      kirchensteuerSatz bruttoJahr zusatzbeitrag werbungskosten kinderAnzahl
      alter).pflegeversicherung ∧
    0 ≤ (computeResult taxConfig resolvedTaxProfileId steuerklasse kirchensteuer
      kirchensteuerSatz bruttoJahr zusatzbeitrag werbungskosten kinderAnzahl
      alter).nettoJahr ∧
    (computeResult taxConfig resolvedTaxProfileId steuerklasse kirchensteuer
      kirchensteuerSatz bruttoJahr zusatzbeitrag werbungskosten kinderAnzahl
      alter).gesamtSteuern +
      (computeResult taxConfig resolvedTaxProfileId steuerklasse kirchensteuer
        kirchensteuerSatz bruttoJahr zusatzbeitrag werbungskosten kinderAnzahl
        alter).gesamtSozialabgaben ≤
      (computeResult taxConfig resolvedTaxProfileId steuerklasse kirchensteuer
        kirchensteuerSatz bruttoJahr zusatzbeitrag werbungskosten kinderAnzahl
        alter).bruttoJahr := by
  obtain ⟨hrv0, hrv1, hrv2⟩ := rentenversicherungOf_bounds h hb
  obtain ⟨hav0, hav1, hav2⟩ := arbeitslosenversicherungOf_bounds h hb
  obtain ⟨hkv0, hkv1, hkv2⟩ := krankenversicherungOf_bounds h hb hz0 hz6
  obtain ⟨hpv0, hpv1, hpv2⟩ := pflegeversicherungOf_bounds h alter kinderAnzahl hb
  have hvp0 : 0 ≤ (calculateSozialabgaben bruttoJahr zusatzbeitrag alter kinderAnzahl
      taxConfig).vorsorgepauschale := by
    rw [sozialabgaben_vorsorgepauschale]
    exact vorsorgepauschale_nonneg h hrv0 hav0 hkv0 hpv0
  obtain ⟨hzve0, hzveb⟩ := zvERohOf_bounds h steuerklasse hb hvp0
  obtain ⟨h360, h36le, hex36⟩ := roundTo36_spec h hzve0
  have hlst0 := lohnsteuerFor_nonneg taxConfig steuerklasse
    (roundTo36 (zvERohOf taxConfig steuerklasse bruttoJahr werbungskosten
      (calculateSozialabgaben bruttoJahr zusatzbeitrag alter kinderAnzahl
        taxConfig).vorsorgepauschale) taxConfig)
  have hges0 : 0 ≤ roundToCents (rentenversicherungOf bruttoJahr taxConfig +
      arbeitslosenversicherungOf bruttoJahr taxConfig +
      krankenversicherungOf bruttoJahr zusatzbeitrag taxConfig +
      pflegeversicherungOf bruttoJahr alter kinderAnzahl taxConfig) :=
    roundToCents_nonneg (by linarith)
  have hges_small : roundToCents (rentenversicherungOf bruttoJahr taxConfig +
      arbeitslosenversicherungOf bruttoJahr taxConfig +
      krankenversicherungOf bruttoJahr zusatzbeitrag taxConfig +
      pflegeversicherungOf bruttoJahr alter kinderAnzahl taxConfig) ≤ 0.932 * bruttoJahr := by
    have := roundToCents_le_two_mul (q := rentenversicherungOf bruttoJahr taxConfig +
      arbeitslosenversicherungOf bruttoJahr taxConfig +
      krankenversicherungOf bruttoJahr zusatzbeitrag taxConfig +
      pflegeversicherungOf bruttoJahr alter kinderAnzahl taxConfig) (by linarith)
    linarith
  have hges_big : roundToCents (rentenversicherungOf bruttoJahr taxConfig +
      arbeitslosenversicherungOf bruttoJahr taxConfig +
      krankenversicherungOf bruttoJahr zusatzbeitrag taxConfig +
      pflegeversicherungOf bruttoJahr alter kinderAnzahl taxConfig) ≤
      0.233 * bruttoJahr + 1/40 := by
    have := roundToCents_le (rentenversicherungOf bruttoJahr taxConfig +
      arbeitslosenversicherungOf bruttoJahr taxConfig +
      krankenversicherungOf bruttoJahr zusatzbeitrag taxConfig +
      pflegeversicherungOf bruttoJahr alter kinderAnzahl taxConfig)
    linarith
  have key := deductions_le h steuerklasse kirchensteuer hb hks0 hks9 hges0 hges_small
    hges_big h360 h36le hzveb hex36
  refine ⟨hlst0, hrv0, hav0, hkv0, hpv0, ?_, ?_⟩
  · rw [computeResult_nettoJahr]
    apply roundToCents_nonneg
    rw [computeResult_gesamtSteuern, computeResult_lohnsteuer,
      computeResult_solidaritaetszuschlag, computeResult_lohnsteuer,
      computeResult_kirchensteuer, computeResult_lohnsteuer, computeResult_gesamtSozialabgaben]
    linarith
  · rw [computeResult_gesamtSteuern, computeResult_lohnsteuer,
      computeResult_solidaritaetszuschlag, computeResult_lohnsteuer,
      computeResult_kirchensteuer, computeResult_lohnsteuer, computeResult_gesamtSozialabgaben,
      computeResult_bruttoJahr]
    linarith

theorem validField_iff {o : Option ℚ} : validField o = true ↔ ∃ q, o = some q ∧ 0 ≤ q := by
  cases o <;> simp [validField]

theorem calculateTax_ok {input : TaxInput} {r : TaxResult}
    (hok : calculateTax input = .ok r) :
    validField input.bruttoJahr = true ∧ validField input.zusatzbeitrag = true ∧
      validField input.werbungskosten = true ∧ validField input.kinderAnzahl = true ∧
      validField input.alter = true ∧
      ∃ taxConfig,
        TAX_PROFILES (input.taxProfileId.getD DEFAULT_TAX_PROFILE) = some taxConfig ∧
        r = computeResult taxConfig (input.taxProfileId.getD DEFAULT_TAX_PROFILE)
          input.steuerklasse input.kirchensteuer input.kirchensteuerSatz
          (input.bruttoJahr.getD 0) (input.zusatzbeitrag.getD 0)
          (input.werbungskosten.getD 0) (input.kinderAnzahl.getD 0) (input.alter.getD 0) := by
  unfold calculateTax at hok
  split_ifs at hok with h1 h2 h3 h4 h5
  cases hmk : TAX_PROFILES (input.taxProfileId.getD DEFAULT_TAX_PROFILE) with
  | none =>
    rw [hmk] at hok
    cases hok
  | some taxConfig =>
    rw [hmk] at hok
    injection hok with hok
    exact ⟨h1, h2, h3, h4, h5, taxConfig, rfl, hok.symm⟩

theorem calculateTax_eq_ok_of_valid {input : TaxInput} {taxConfig : TaxConfig}
    (h1 : validField input.bruttoJahr = true) (h2 : validField input.zusatzbeitrag = true)
    (h3 : validField input.werbungskosten = true) (h4 : validField input.kinderAnzahl = true)
    (h5 : validField input.alter = true)
    (hcfg : TAX_PROFILES (input.taxProfileId.getD DEFAULT_TAX_PROFILE) = some taxConfig) :
    calculateTax input = .ok (computeResult taxConfig
      (input.taxProfileId.getD DEFAULT_TAX_PROFILE) input.steuerklasse input.kirchensteuer
      input.kirchensteuerSatz (input.bruttoJahr.getD 0) (input.zusatzbeitrag.getD 0)
      (input.werbungskosten.getD 0) (input.kinderAnzahl.getD 0) (input.alter.getD 0)) := by
  unfold calculateTax
  rw [if_pos h1, if_pos h2, if_pos h3, if_pos h4, if_pos h5, hcfg]

theorem calculateTax_error_brutto {input : TaxInput}
    (h : validField input.bruttoJahr = false) :
    calculateTax input = .error "bruttoJahr muss eine nicht-negative Zahl sein." := by
  unfold calculateTax
  rw [if_neg (by rw [h]; exact Bool.false_ne_true)]

theorem calculateTax_error_zusatz {input : TaxInput}
    (h1 : validField input.bruttoJahr = true) (h : validField input.zusatzbeitrag = false) :
    calculateTax input = .error "zusatzbeitrag muss eine nicht-negative Zahl sein." := by
  unfold calculateTax
  rw [if_pos h1, if_neg (by rw [h]; exact Bool.false_ne_true)]

theorem calculateTax_error_werbung {input : TaxInput}
    (h1 : validField input.bruttoJahr = true) (h2 : validField input.zusatzbeitrag = true)
    (h : validField input.werbungskosten = false) :
    calculateTax input = .error "werbungskosten muss eine nicht-negative Zahl sein." := by
  unfold calculateTax
  rw [if_pos h1, if_pos h2, if_neg (by rw [h]; exact Bool.false_ne_true)]

theorem calculateTax_error_kinder {input : TaxInput}
    (h1 : validField input.bruttoJahr = true) (h2 : validField input.zusatzbeitrag = true)
    (h3 : validField input.werbungskosten = true) (h : validField input.kinderAnzahl = false) :
    calculateTax input = .error "kinderAnzahl muss eine nicht-negative Zahl sein." := by
  unfold calculateTax
  rw [if_pos h1, if_pos h2, if_pos h3, if_neg (by rw [h]; exact Bool.false_ne_true)]

theorem calculateTax_error_alter {input : TaxInput}
    (h1 : validField input.bruttoJahr = true) (h2 : validField input.zusatzbeitrag = true)
    (h3 : validField input.werbungskosten = true) (h4 : validField input.kinderAnzahl = true)
    (h : validField input.alter = false) :
    calculateTax input = .error "alter muss eine nicht-negative Zahl sein." := by
  unfold calculateTax
  rw [if_pos h1, if_pos h2, if_pos h3, if_pos h4,
    if_neg (by rw [h]; exact Bool.false_ne_true)]

namespace BruttoNetto

theorem validField_getD {o : Option ℚ} (h : validField o = true) : 0 ≤ o.getD 0 := by
  cases o with
  | none => cases h
  | some q =>
    simp only [validField, decide_eq_true_eq] at h
    simpa using h

theorem getTaxProfileConfig_good {id : Option String} {taxConfig : TaxConfig}
    (h : getTaxProfileConfig id = some taxConfig) : goodConfig taxConfig :=
  TAX_PROFILES_good h

theorem roundToCents_eval {q : ℚ} {n : ℤ} (h1 : (n : ℚ) ≤ q * 100 + 1/2)
    (h2 : q * 100 + 1/2 < n + 1) : roundToCents q = (n : ℚ) / 100 := by
  unfold roundToCents mathRound
  rw [Int.floor_eq_iff.mpr ⟨h1, h2⟩]

theorem floor_eval {q : ℚ} {n : ℤ} (h1 : (n : ℚ) ≤ q) (h2 : q < n + 1) :
    ((⌊q⌋ : ℤ) : ℚ) = (n : ℚ) := by
  rw [Int.floor_eq_iff.mpr ⟨h1, h2⟩]

end BruttoNetto

namespace BruttoNetto

/-- C8: the profile-resolution query `getTaxProfileConfig` returns the full
constant set of the default profile (2026_current) when no identifier is
supplied, returns the constant set of a known identifier, and yields no
constant set at all (undefined, modelled as `none`) for any unknown
identifier. -/
theorem getTaxProfileConfig_spec :
    getTaxProfileConfig none = some cfg2026current ∧
    getTaxProfileConfig (some "2026_current") = some cfg2026current ∧
    getTaxProfileConfig (some "2026_legacy") = some cfg2026legacy ∧
    ∀ id : String, id ≠ "2026_current" → id ≠ "2026_legacy" →
      getTaxProfileConfig (some id) = none := by
  refine ⟨rfl, rfl, rfl, ?_⟩
  intro id h1 h2
  unfold getTaxProfileConfig TAX_PROFILES
  simp only [Option.getD_some]
  rw [if_neg h1, if_neg h2]

/-- Witness for C8: the identifier 2026_unknown is neither of the two known
identifiers and resolves to no profile. -/
theorem getTaxProfileConfig_spec_witness :
    ("2026_unknown" : String) ≠ "2026_current" ∧
      ("2026_unknown" : String) ≠ "2026_legacy" ∧
      getTaxProfileConfig (some "2026_unknown") = none :=
  ⟨by decide, by decide,
    getTaxProfileConfig_spec.2.2.2 "2026_unknown" (by decide) (by decide)⟩

/-- C6: for every income-tax amount and every profile of the table, the
solidarity surcharge is zero when the tax is at or below the exemption
threshold, and otherwise is the lesser of tax times flat rate and
(tax minus threshold) times mitigation rate, rounded to the nearest cent;
moreover just above the threshold (up to 37838) the mitigation term is the
strictly smaller of the two, so the surcharge phases in continuously. -/
theorem calculateSoli_spec (lohnsteuer : ℚ) {id : Option String} {taxConfig : TaxConfig}
    (hcfg : getTaxProfileConfig id = some taxConfig) :
    (lohnsteuer ≤ taxConfig.soliFreigrenze → calculateSoli lohnsteuer taxConfig = 0) ∧
    (taxConfig.soliFreigrenze < lohnsteuer →
      calculateSoli lohnsteuer taxConfig =
        roundToCents (min (lohnsteuer * taxConfig.soliSatz)
          ((lohnsteuer - taxConfig.soliFreigrenze) * taxConfig.soliMinderungssatz))) ∧
    (taxConfig.soliFreigrenze < lohnsteuer → lohnsteuer ≤ 37838 →
      (lohnsteuer - taxConfig.soliFreigrenze) * taxConfig.soliMinderungssatz <
          lohnsteuer * taxConfig.soliSatz ∧
        calculateSoli lohnsteuer taxConfig =
          roundToCents ((lohnsteuer - taxConfig.soliFreigrenze) *
            taxConfig.soliMinderungssatz)) := by
  have hgood := getTaxProfileConfig_good hcfg
  obtain ⟨_, _, _, _, _, _, _, _, _, _, _, _, _, hfg, hms, hss, _⟩ :=
    goodConfig_constants hgood
  refine ⟨?_, ?_, ?_⟩
  · intro hle
    unfold calculateSoli
    rw [if_pos hle]
  · intro hlt
    unfold calculateSoli
    rw [if_neg (not_le.mpr hlt)]
  · intro hlt hub
    have hmitlt : (lohnsteuer - taxConfig.soliFreigrenze) * taxConfig.soliMinderungssatz <
        lohnsteuer * taxConfig.soliSatz := by
      rw [hfg, hms, hss]
      rw [hfg] at hlt
      nlinarith
    refine ⟨hmitlt, ?_⟩
    unfold calculateSoli
    rw [if_neg (not_le.mpr hlt), min_eq_right (le_of_lt hmitlt)]

/-- Witness for C6: income tax 30000 with the current profile lies in the
mitigation zone; the surcharge is the rounded mitigation term. -/
theorem calculateSoli_spec_witness :
    cfg2026current.soliFreigrenze < (30000 : ℚ) ∧ (30000 : ℚ) ≤ 37838 ∧
      ((30000 - cfg2026current.soliFreigrenze) * cfg2026current.soliMinderungssatz <
          30000 * cfg2026current.soliSatz ∧
        calculateSoli 30000 cfg2026current =
          roundToCents ((30000 - cfg2026current.soliFreigrenze) *
            cfg2026current.soliMinderungssatz)) :=
  ⟨by decide, by decide,
    (@calculateSoli_spec 30000 none cfg2026current rfl).2.2 (by decide) (by decide)⟩

end BruttoNetto

namespace BruttoNetto

/-- C7: validation of the five numeric request fields happens before any
computation and in the fixed source order; the first invalid field (non-finite,
modelled as `none`, or negative) determines the error message; a successful
result exists exactly when all five fields are valid (for a resolvable
profile), and an error carries no partial result by construction of
`Except`. -/
theorem calculateTax_validation (input : TaxInput) :
    (validField input.bruttoJahr = false →
      calculateTax input = .error "bruttoJahr muss eine nicht-negative Zahl sein.") ∧
    (validField input.bruttoJahr = true → validField input.zusatzbeitrag = false →
      calculateTax input = .error "zusatzbeitrag muss eine nicht-negative Zahl sein.") ∧
    (validField input.bruttoJahr = true → validField input.zusatzbeitrag = true →
      validField input.werbungskosten = false →
      calculateTax input = .error "werbungskosten muss eine nicht-negative Zahl sein.") ∧
    (validField input.bruttoJahr = true → validField input.zusatzbeitrag = true →
      validField input.werbungskosten = true → validField input.kinderAnzahl = false →
      calculateTax input = .error "kinderAnzahl muss eine nicht-negative Zahl sein.") ∧
    (validField input.bruttoJahr = true → validField input.zusatzbeitrag = true →
      validField input.werbungskosten = true → validField input.kinderAnzahl = true →
      validField input.alter = false →
      calculateTax input = .error "alter muss eine nicht-negative Zahl sein.") ∧
    (∀ r, calculateTax input = .ok r →
      validField input.bruttoJahr = true ∧ validField input.zusatzbeitrag = true ∧
        validField input.werbungskosten = true ∧ validField input.kinderAnzahl = true ∧
        validField input.alter = true) ∧
    (validField input.bruttoJahr = true → validField input.zusatzbeitrag = true →
      validField input.werbungskosten = true → validField input.kinderAnzahl = true →
      validField input.alter = true →
      ∀ taxConfig, getTaxProfileConfig input.taxProfileId = some taxConfig →
        ∃ r, calculateTax input = .ok r) := by
  refine ⟨calculateTax_error_brutto, calculateTax_error_zusatz, calculateTax_error_werbung,
    calculateTax_error_kinder, calculateTax_error_alter, ?_, ?_⟩
  · intro r hok
    obtain ⟨h1, h2, h3, h4, h5, _⟩ := calculateTax_ok hok
    exact ⟨h1, h2, h3, h4, h5⟩
  · intro h1 h2 h3 h4 h5 taxConfig hcfg
    exact ⟨_, calculateTax_eq_ok_of_valid h1 h2 h3 h4 h5 hcfg⟩

/-- Witness for C7: a request with gross income minus one fails with the
gross-income message. -/
theorem calculateTax_validation_witness :
    validField inputNegative.bruttoJahr = false ∧
      calculateTax inputNegative =
        .error "bruttoJahr muss eine nicht-negative Zahl sein." :=
  ⟨by decide, (calculateTax_validation inputNegative).1 (by decide)⟩

/-- C10: the church-tax rate field is never validated; for any request whose
five validated fields are valid and whose profile resolves, the computation
succeeds for every rational church-tax rate (including negative and values
outside the two legally permitted rates), and the church tax is zero when the
flag is off and otherwise the income tax times the rate rounded to the nearest
cent. -/
theorem kirchensteuerSatz_not_validated (input : TaxInput) (taxConfig : TaxConfig)
    (h1 : validField input.bruttoJahr = true) (h2 : validField input.zusatzbeitrag = true)
    (h3 : validField input.werbungskosten = true) (h4 : validField input.kinderAnzahl = true)
    (h5 : validField input.alter = true)
    (hcfg : getTaxProfileConfig input.taxProfileId = some taxConfig) :
    ∃ r, calculateTax input = .ok r ∧
      r.kirchensteuer = (if input.kirchensteuer then
        roundToCents (r.lohnsteuer * input.kirchensteuerSatz) else 0) := by
  refine ⟨_, calculateTax_eq_ok_of_valid h1 h2 h3 h4 h5 hcfg, ?_⟩
  rw [computeResult_kirchensteuer]
  rfl

/-- Witness for C10: a request with the out-of-range church-tax rate minus five
still succeeds. -/
theorem kirchensteuerSatz_not_validated_witness :
    ∃ r, calculateTax inputChurchOdd = .ok r ∧
      r.kirchensteuer = (if inputChurchOdd.kirchensteuer then
        roundToCents (r.lohnsteuer * inputChurchOdd.kirchensteuerSatz) else 0) :=
  kirchensteuerSatz_not_validated inputChurchOdd cfg2026current (by decide) (by decide)
    (by decide) (by decide) (by decide) rfl

/-- C9: on every successful computation the reported rounded taxable base is a
non-negative integer multiple of 36, is at most the raw taxable base, and is
exactly the value fed to the tax-class procedure that produced the reported
income tax. -/
theorem zvEForLohnsteuer_invariant {input : TaxInput} {r : TaxResult}
    {taxConfig : TaxConfig} (hok : calculateTax input = .ok r)
    (hcfg : getTaxProfileConfig input.taxProfileId = some taxConfig) :
    (∃ k : ℤ, 0 ≤ k ∧ r.zvEForLohnsteuer = 36 * k) ∧
      r.zvEForLohnsteuer ≤ r.zuVersteuerndesEinkommen ∧
      r.lohnsteuer = lohnsteuerFor taxConfig input.steuerklasse r.zvEForLohnsteuer := by
  obtain ⟨h1, h2, h3, h4, h5, taxConfig2, hcfg2, hr⟩ := calculateTax_ok hok
  have hcfg12 : taxConfig2 = taxConfig := by
    have : getTaxProfileConfig input.taxProfileId = some taxConfig2 := hcfg2
    rw [hcfg] at this
    injection this with this
    exact this.symm
  subst hcfg12
  subst hr
  have hgood := getTaxProfileConfig_good hcfg
  have hzve0 : 0 ≤ zvERohOf taxConfig2 input.steuerklasse (input.bruttoJahr.getD 0)
      (input.werbungskosten.getD 0)
      (calculateSozialabgaben (input.bruttoJahr.getD 0) (input.zusatzbeitrag.getD 0)
        (input.alter.getD 0) (input.kinderAnzahl.getD 0) taxConfig2).vorsorgepauschale :=
    le_max_left 0 _
  obtain ⟨h360, h36le, hex⟩ := roundTo36_spec hgood hzve0
  refine ⟨?_, ?_, ?_⟩
  · rw [computeResult_zvEForLohnsteuer]
    obtain ⟨k, hk0, hk⟩ := hex
    exact ⟨k, hk0, hk⟩
  · rw [computeResult_zvEForLohnsteuer, computeResult_zuVersteuerndesEinkommen]
    exact h36le
  · rw [computeResult_lohnsteuer, computeResult_zvEForLohnsteuer]

/-- Witness for C9: the class V request with gross 50000 satisfies the rounded
base invariant. -/
theorem zvEForLohnsteuer_invariant_witness :
    ∃ r, calculateTax inputInvariant = .ok r ∧
      ((∃ k : ℤ, 0 ≤ k ∧ r.zvEForLohnsteuer = 36 * k) ∧
        r.zvEForLohnsteuer ≤ r.zuVersteuerndesEinkommen ∧
        r.lohnsteuer = lohnsteuerFor cfg2026current inputInvariant.steuerklasse
          r.zvEForLohnsteuer) :=
  ⟨_, rfl, @zvEForLohnsteuer_invariant inputInvariant _ cfg2026current rfl rfl⟩

/-- C3: for every successful class III computation, the reported income tax is
exactly twice the tariff applied to half of the rounded base, where the
rounded base is the raw taxable base rounded down to a multiple of the profile
granularity. -/
theorem splitting_exact {input : TaxInput} {r : TaxResult} {taxConfig : TaxConfig}
    (hok : calculateTax input = .ok r)
    (hcfg : getTaxProfileConfig input.taxProfileId = some taxConfig)
    (hIII : input.steuerklasse = Steuerklasse.III) :
    r.zvEForLohnsteuer = roundTo36 r.zuVersteuerndesEinkommen taxConfig ∧
      r.lohnsteuer =
        2 * calculateTarif (roundTo36 r.zuVersteuerndesEinkommen taxConfig / 2) taxConfig := by
  obtain ⟨h1, h2, h3, h4, h5, taxConfig2, hcfg2, hr⟩ := calculateTax_ok hok
  have hcfg12 : taxConfig2 = taxConfig := by
    have : getTaxProfileConfig input.taxProfileId = some taxConfig2 := hcfg2
    rw [hcfg] at this
    injection this with this
    exact this.symm
  subst hcfg12
  subst hr
  constructor
  · rw [computeResult_zvEForLohnsteuer, computeResult_zuVersteuerndesEinkommen]
  · rw [computeResult_lohnsteuer, computeResult_zuVersteuerndesEinkommen, hIII]
    simp only [lohnsteuerFor]
    rw [calculateSplittingTarif_eq]

/-- Witness for C3: the class III request with gross 50000. -/
theorem splitting_exact_witness :
    ∃ r, calculateTax inputSplitting = .ok r ∧
      (r.zvEForLohnsteuer = roundTo36 r.zuVersteuerndesEinkommen cfg2026current ∧
        r.lohnsteuer = 2 * calculateTarif
          (roundTo36 r.zuVersteuerndesEinkommen cfg2026current / 2) cfg2026current) :=
  ⟨_, rfl, @splitting_exact inputSplitting _ cfg2026current rfl rfl rfl⟩

end BruttoNetto

namespace BruttoNetto

theorem goodConfig_zonesOrder {taxConfig : TaxConfig} (h : goodConfig taxConfig) :
    taxConfig.grundfreibetrag ≤ taxConfig.zone1End ∧
      taxConfig.zone1End ≤ taxConfig.zone2End ∧
      taxConfig.zone2End ≤ taxConfig.zone3End := by
  rcases h with rfl | rfl <;> norm_num [cfg2026current, cfg2026legacy]

/-- C1 (amended): for every taxable-income input and every profile of the
table, the tariff truncates the input downward to a full Euro (the result only
depends on the truncation), returns zero at or below the basic allowance, and
otherwise evaluates exactly one of the four zone formulas selected by the
three ascending thresholds; the returned value is non-negative and is an
integer number of CENTS: the zone value is rounded to the nearest cent and
clamped at zero, not floored to a whole Euro as the claim states. -/
theorem calculateTarif_spec (zve : ℚ) {id : Option String} {taxConfig : TaxConfig}
    (hcfg : getTaxProfileConfig id = some taxConfig) :
    calculateTarif zve taxConfig = calculateTarif ((⌊zve⌋ : ℤ) : ℚ) taxConfig ∧
    0 ≤ calculateTarif zve taxConfig ∧
    (∃ n : ℤ, 0 ≤ n ∧ calculateTarif zve taxConfig = (n : ℚ) / 100) ∧
    (((⌊zve⌋ : ℤ) : ℚ) ≤ taxConfig.grundfreibetrag → calculateTarif zve taxConfig = 0) ∧
    (taxConfig.grundfreibetrag < ((⌊zve⌋ : ℤ) : ℚ) →
      ((⌊zve⌋ : ℤ) : ℚ) ≤ taxConfig.zone1End →
      calculateTarif zve taxConfig = max 0 (roundToCents
        ((taxConfig.zone2CoeffA * ((((⌊zve⌋ : ℤ) : ℚ) - taxConfig.grundfreibetrag) / 10000) +
            1400) *
          ((((⌊zve⌋ : ℤ) : ℚ) - taxConfig.grundfreibetrag) / 10000)))) ∧
    (taxConfig.zone1End < ((⌊zve⌋ : ℤ) : ℚ) → ((⌊zve⌋ : ℤ) : ℚ) ≤ taxConfig.zone2End →
      calculateTarif zve taxConfig = max 0 (roundToCents
        ((taxConfig.zone3CoeffA * ((((⌊zve⌋ : ℤ) : ℚ) - taxConfig.zone1End) / 10000) + 2397) *
          ((((⌊zve⌋ : ℤ) : ℚ) - taxConfig.zone1End) / 10000) + taxConfig.zone3Base))) ∧
    (taxConfig.zone2End < ((⌊zve⌋ : ℤ) : ℚ) → ((⌊zve⌋ : ℤ) : ℚ) ≤ taxConfig.zone3End →
      calculateTarif zve taxConfig = max 0 (roundToCents
        (0.42 * ((⌊zve⌋ : ℤ) : ℚ) - taxConfig.zone4Offset))) ∧
    (taxConfig.zone3End < ((⌊zve⌋ : ℤ) : ℚ) →
      calculateTarif zve taxConfig = max 0 (roundToCents
        (0.45 * ((⌊zve⌋ : ℤ) : ℚ) - taxConfig.zone5Offset))) := by
  have hgood := getTaxProfileConfig_good hcfg
  obtain ⟨ho1, ho2, ho3⟩ := goodConfig_zonesOrder hgood
  refine ⟨?_, le_max_left 0 _, calculateTarif_cent zve taxConfig, ?_, ?_, ?_, ?_, ?_⟩
  · unfold calculateTarif
    rw [Int.floor_intCast]
  · exact calculateTarif_zero
  · intro ha hb
    unfold calculateTarif tarifRaw
    rw [if_neg (not_le.mpr ha), if_pos hb]
  · intro ha hb
    unfold calculateTarif tarifRaw
    rw [if_neg (not_le.mpr (by linarith)), if_neg (not_le.mpr ha), if_pos hb]
  · intro ha hb
    unfold calculateTarif tarifRaw
    rw [if_neg (not_le.mpr (by linarith)), if_neg (not_le.mpr (by linarith)),
      if_neg (not_le.mpr ha), if_pos hb]
  · intro ha
    unfold calculateTarif tarifRaw
    rw [if_neg (not_le.mpr (by linarith)), if_neg (not_le.mpr (by linarith)),
      if_neg (not_le.mpr (by linarith)), if_neg (not_le.mpr ha)]

/-- Witness for C1: input 12350 with the current profile lies in zone 2 and
the tariff equals the clamped rounded zone 2 formula there. -/
theorem calculateTarif_spec_witness :
    cfg2026current.grundfreibetrag < ((⌊(12350 : ℚ)⌋ : ℤ) : ℚ) ∧
      ((⌊(12350 : ℚ)⌋ : ℤ) : ℚ) ≤ cfg2026current.zone1End ∧
      calculateTarif 12350 cfg2026current = max 0 (roundToCents
        ((cfg2026current.zone2CoeffA *
            ((((⌊(12350 : ℚ)⌋ : ℤ) : ℚ) - cfg2026current.grundfreibetrag) / 10000) + 1400) *
          ((((⌊(12350 : ℚ)⌋ : ℤ) : ℚ) - cfg2026current.grundfreibetrag) / 10000))) :=
  ⟨by decide, by decide,
    (@calculateTarif_spec 12350 none cfg2026current rfl).2.2.2.2.1 (by decide) (by decide)⟩

/-- Counterexample for C1: for the current profile the tariff at 12350 is 0.28,
a cent amount that is not an integer number of Euro, so the result is not
floored to an integer currency unit. -/
theorem calculateTarif_not_whole_euro :
    calculateTarif 12350 cfg2026current = 7/25 ∧
      ∀ n : ℤ, calculateTarif 12350 cfg2026current ≠ (n : ℚ) := by
  have heval : calculateTarif 12350 cfg2026current = 7/25 := by
    have hfl : ⌊(12350 : ℚ)⌋ = 12350 := by decide
    unfold calculateTarif
    rw [hfl]
    have hraw : tarifRaw ((12350 : ℤ) : ℚ) cfg2026current =
        (914.51 * ((12350 - 12348) / 10000) + 1400) * ((12350 - 12348) / 10000) := by
      unfold tarifRaw
      norm_num [cfg2026current]
    rw [hraw, roundToCents_eval (n := 28) (by norm_num) (by norm_num)]
    norm_num
  refine ⟨heval, ?_⟩
  intro n h
  rw [heval] at h
  have h2 : (7 : ℚ) = 25 * n := by
    field_simp at h
    linarith
  have h3 : (7 : ℤ) = 25 * n := by exact_mod_cast h2
  omega

end BruttoNetto

namespace BruttoNetto

/-- C2 (amended): the secondary-class procedure floors the base, clamps it to
breakpoint 2 and runs the double-difference sub-procedure `calculateUp56` on
the clamped value, where the doubled tariff difference is NOT floored (only
the 14 percent comparison value is floored); above breakpoint 2 a flat
increment at the zone-4 rate (split across the zone-4 and zone-5 rates above
breakpoint 3) is added with a floor; above breakpoint 1 the result is the
larger of that candidate and the floored value of [sub-procedure at
breakpoint 1] plus [0.42 times the excess over breakpoint 1]; the final value
is floored and clamped at zero. -/
theorem tarifClassFiveSix_spec (zve : ℚ) (taxConfig : TaxConfig) :
    calculateTarifClassFiveSix zve taxConfig =
      calculateTarifClassFiveSix ((⌊zve⌋ : ℤ) : ℚ) taxConfig ∧
    (((⌊zve⌋ : ℤ) : ℚ) ≤ taxConfig.stkl5Grenze1 →
      ((⌊zve⌋ : ℤ) : ℚ) ≤ taxConfig.stkl5Grenze2 →
      calculateTarifClassFiveSix zve taxConfig =
        max 0 ((⌊calculateUp56 (min ((⌊zve⌋ : ℤ) : ℚ) taxConfig.stkl5Grenze2)
          taxConfig⌋ : ℤ) : ℚ)) ∧
    (taxConfig.stkl5Grenze1 < ((⌊zve⌋ : ℤ) : ℚ) →
      ((⌊zve⌋ : ℤ) : ℚ) ≤ taxConfig.stkl5Grenze2 →
      calculateTarifClassFiveSix zve taxConfig =
        max 0 ((⌊max (calculateUp56 (min ((⌊zve⌋ : ℤ) : ℚ) taxConfig.stkl5Grenze2) taxConfig)
          ((⌊calculateUp56 taxConfig.stkl5Grenze1 taxConfig +
            (((⌊zve⌋ : ℤ) : ℚ) - taxConfig.stkl5Grenze1) * 0.42⌋ : ℤ) : ℚ)⌋ : ℤ) : ℚ)) ∧
    (taxConfig.stkl5Grenze1 < ((⌊zve⌋ : ℤ) : ℚ) →
      taxConfig.stkl5Grenze2 < ((⌊zve⌋ : ℤ) : ℚ) →
      ((⌊zve⌋ : ℤ) : ℚ) ≤ taxConfig.stkl5Grenze3 →
      calculateTarifClassFiveSix zve taxConfig =
        max 0 ((⌊max
          ((⌊calculateUp56 (min ((⌊zve⌋ : ℤ) : ℚ) taxConfig.stkl5Grenze2) taxConfig +
            (((⌊zve⌋ : ℤ) : ℚ) - taxConfig.stkl5Grenze2) * 0.42⌋ : ℤ) : ℚ)
          ((⌊calculateUp56 taxConfig.stkl5Grenze1 taxConfig +
            (((⌊zve⌋ : ℤ) : ℚ) - taxConfig.stkl5Grenze1) * 0.42⌋ : ℤ) : ℚ)⌋ : ℤ) : ℚ)) ∧
    (taxConfig.stkl5Grenze1 < ((⌊zve⌋ : ℤ) : ℚ) →
      taxConfig.stkl5Grenze2 < ((⌊zve⌋ : ℤ) : ℚ) →
      taxConfig.stkl5Grenze3 < ((⌊zve⌋ : ℤ) : ℚ) →
      calculateTarifClassFiveSix zve taxConfig =
        max 0 ((⌊max
          ((⌊calculateUp56 (min ((⌊zve⌋ : ℤ) : ℚ) taxConfig.stkl5Grenze2) taxConfig +
            (taxConfig.stkl5Grenze3 - taxConfig.stkl5Grenze2) * 0.42 +
            (((⌊zve⌋ : ℤ) : ℚ) - taxConfig.stkl5Grenze3) * 0.45⌋ : ℤ) : ℚ)
          ((⌊calculateUp56 taxConfig.stkl5Grenze1 taxConfig +
            (((⌊zve⌋ : ℤ) : ℚ) - taxConfig.stkl5Grenze1) * 0.42⌋ : ℤ) : ℚ)⌋ : ℤ) : ℚ)) := by
  refine ⟨?_, ?_, ?_, ?_, ?_⟩
  · simp only [calculateTarifClassFiveSix, Int.floor_intCast]
  · intro h1 h2
    simp only [calculateTarifClassFiveSix]
    rw [if_neg (not_lt.mpr h1), if_neg (not_lt.mpr h2)]
  · intro h1 h2
    simp only [calculateTarifClassFiveSix]
    rw [if_pos h1, if_neg (not_lt.mpr h2)]
  · intro h1 h2 h3
    simp only [calculateTarifClassFiveSix]
    rw [if_pos h1, if_pos h2, if_neg (not_lt.mpr h3)]
  · intro h1 h2 h3
    simp only [calculateTarifClassFiveSix]
    rw [if_pos h1, if_pos h2, if_pos h3]

/-- Witness for C2: base 25851 with the current profile lies strictly between
breakpoint 1 and breakpoint 2, and the procedure returns the guarded maximum
of the clamped baseline and the breakpoint-1 candidate. -/
theorem tarifClassFiveSix_spec_witness :
    cfg2026current.stkl5Grenze1 < ((⌊(25851 : ℚ)⌋ : ℤ) : ℚ) ∧
      ((⌊(25851 : ℚ)⌋ : ℤ) : ℚ) ≤ cfg2026current.stkl5Grenze2 ∧
      calculateTarifClassFiveSix 25851 cfg2026current =
        max 0 ((⌊max (calculateUp56 (min ((⌊(25851 : ℚ)⌋ : ℤ) : ℚ)
            cfg2026current.stkl5Grenze2) cfg2026current)
          ((⌊calculateUp56 cfg2026current.stkl5Grenze1 cfg2026current +
            (((⌊(25851 : ℚ)⌋ : ℤ) : ℚ) - cfg2026current.stkl5Grenze1) *
              0.42⌋ : ℤ) : ℚ)⌋ : ℤ) : ℚ) :=
  ⟨by decide, by decide,
    (tarifClassFiveSix_spec 25851 cfg2026current).2.2.1 (by decide) (by decide)⟩

end BruttoNetto

namespace BruttoNetto

/-- Counterexample for C2 as stated: at base 25851 with the current profile the
source procedure (unfloored doubled difference) yields 6917, while the claimed
procedure (difference doubled and floored) yields 6916. -/
theorem tarifClassFiveSix_counterexample :
    calculateTarifClassFiveSix 25851 cfg2026current = 6917 ∧
      calculateTarifClassFiveSixClaimed 25851 cfg2026current = 6916 := by
  have t1 : calculateTarif (25851 * 1.25 : ℚ) cfg2026current = (487852 : ℚ) / 100 := by
    have hfl : ⌊(25851 * 1.25 : ℚ)⌋ = 32313 := Int.floor_eq_iff.mpr ⟨by norm_num, by norm_num⟩
    unfold calculateTarif
    rw [hfl]
    have hraw : tarifRaw ((32313 : ℤ) : ℚ) cfg2026current =
        (173.1 * ((32313 - 17799) / 10000) + 2397) * ((32313 - 17799) / 10000) + 1034.87 := by
      unfold tarifRaw
      norm_num [cfg2026current]
    rw [hraw, roundToCents_eval (n := 487852) (by norm_num) (by norm_num)]
    norm_num
  have t2 : calculateTarif (25851 * 0.75 : ℚ) cfg2026current = (142012 : ℚ) / 100 := by
    have hfl : ⌊(25851 * 0.75 : ℚ)⌋ = 19388 := Int.floor_eq_iff.mpr ⟨by norm_num, by norm_num⟩
    unfold calculateTarif
    rw [hfl]
    have hraw : tarifRaw ((19388 : ℤ) : ℚ) cfg2026current =
        (173.1 * ((19388 - 17799) / 10000) + 2397) * ((19388 - 17799) / 10000) + 1034.87 := by
      unfold tarifRaw
      norm_num [cfg2026current]
    rw [hraw, roundToCents_eval (n := 142012) (by norm_num) (by norm_num)]
    norm_num
  have t3 : calculateTarif (14071 * 1.25 : ℚ) cfg2026current = (98470 : ℚ) / 100 := by
    have hfl : ⌊(14071 * 1.25 : ℚ)⌋ = 17588 := Int.floor_eq_iff.mpr ⟨by norm_num, by norm_num⟩
    unfold calculateTarif
    rw [hfl]
    have hraw : tarifRaw ((17588 : ℤ) : ℚ) cfg2026current =
        (914.51 * ((17588 - 12348) / 10000) + 1400) * ((17588 - 12348) / 10000) := by
      unfold tarifRaw
      norm_num [cfg2026current]
    rw [hraw, roundToCents_eval (n := 98470) (by norm_num) (by norm_num)]
    norm_num
  have t4 : calculateTarif (14071 * 0.75 : ℚ) cfg2026current = 0 := by
    have hfl : ⌊(14071 * 0.75 : ℚ)⌋ = 10553 := Int.floor_eq_iff.mpr ⟨by norm_num, by norm_num⟩
    exact calculateTarif_zero (by rw [hfl]; norm_num [cfg2026current])
  have hup : calculateUp56 (25851 : ℚ) cfg2026current = (34584 : ℚ) / 5 := by
    unfold calculateUp56
    rw [t1, t2]
    rw [floor_eval (q := (25851 : ℚ) * 0.14) (n := 3619) (by norm_num) (by norm_num)]
    rw [max_eq_left (show ((3619 : ℤ) : ℚ) ≤
      ((487852 : ℚ) / 100 - (142012 : ℚ) / 100) * 2 from by push_cast; norm_num)]
    norm_num
  have hupg1 : calculateUp56 (14071 : ℚ) cfg2026current = (9847 : ℚ) / 5 := by
    unfold calculateUp56
    rw [t3, t4]
    rw [floor_eval (q := (14071 : ℚ) * 0.14) (n := 1969) (by norm_num) (by norm_num)]
    rw [max_eq_left (show ((1969 : ℤ) : ℚ) ≤
      ((98470 : ℚ) / 100 - 0) * 2 from by push_cast; norm_num)]
    norm_num
  have hupc : calculateUp56Claimed (25851 : ℚ) cfg2026current = (6916 : ℚ) := by
    unfold calculateUp56Claimed
    rw [t1, t2]
    rw [floor_eval (q := ((487852 : ℚ) / 100 - (142012 : ℚ) / 100) * 2) (n := 6916)
      (by norm_num) (by norm_num)]
    rw [floor_eval (q := (25851 : ℚ) * 0.14) (n := 3619) (by norm_num) (by norm_num)]
    rw [max_eq_left (show ((3619 : ℤ) : ℚ) ≤ ((6916 : ℤ) : ℚ) from by push_cast; norm_num)]
    push_cast
    norm_num
  have hupg1c : calculateUp56Claimed (14071 : ℚ) cfg2026current = (1969 : ℚ) := by
    unfold calculateUp56Claimed
    rw [t3, t4]
    rw [floor_eval (q := ((98470 : ℚ) / 100 - 0) * 2) (n := 1969) (by norm_num) (by norm_num)]
    rw [floor_eval (q := (14071 : ℚ) * 0.14) (n := 1969) (by norm_num) (by norm_num)]
    rw [max_self]
    push_cast
    norm_num
  have hflq : ((⌊(25851 : ℚ)⌋ : ℤ) : ℚ) = (25851 : ℚ) := by
    rw [show ⌊(25851 : ℚ)⌋ = (25851 : ℤ) from by decide]
    norm_num
  have hmin : min (25851 : ℚ) cfg2026current.stkl5Grenze2 = (25851 : ℚ) :=
    min_eq_left (by norm_num [cfg2026current])
  have hg1 : cfg2026current.stkl5Grenze1 = (14071 : ℚ) := by norm_num [cfg2026current]
  have hc1 : cfg2026current.stkl5Grenze1 < (25851 : ℚ) := by norm_num [cfg2026current]
  have hc2 : ¬ cfg2026current.stkl5Grenze2 < (25851 : ℚ) := by norm_num [cfg2026current]
  constructor
  · simp only [calculateTarifClassFiveSix]
    rw [hflq, if_pos hc1, if_neg hc2, hmin, hg1, hup, hupg1]
    rw [floor_eval (q := (9847 : ℚ) / 5 + ((25851 : ℚ) - 14071) * 0.42) (n := 6917)
      (by norm_num) (by norm_num)]
    rw [max_eq_right (show (34584 : ℚ) / 5 ≤ ((6917 : ℤ) : ℚ) from by push_cast; norm_num)]
    rw [Int.floor_intCast]
    rw [max_eq_right (show (0 : ℚ) ≤ ((6917 : ℤ) : ℚ) from by positivity)]
    push_cast
    norm_num
  · simp only [calculateTarifClassFiveSixClaimed]
    rw [hflq, if_pos hc1, if_neg hc2, hmin, hg1, hupc, hupg1c]
    rw [floor_eval (q := (1969 : ℚ) + ((25851 : ℚ) - 14071) * 0.42) (n := 6916)
      (by norm_num) (by norm_num)]
    rw [max_eq_left (show ((6916 : ℤ) : ℚ) ≤ (6916 : ℚ) from by push_cast; norm_num)]
    rw [floor_eval (q := (6916 : ℚ)) (n := 6916) (by norm_num) (by norm_num)]
    rw [max_eq_right (show (0 : ℚ) ≤ ((6916 : ℤ) : ℚ) from by positivity)]
    push_cast
    norm_num

end BruttoNetto

namespace BruttoNetto

/-- C4 (amended): for every accepted request whose additional contribution rate
is at most 6 percent and whose church-tax rate lies between 0 and 0.09, the
income tax, the four social contributions and the net annual income are
non-negative and the total deductions do not exceed the gross income. Without
the two extra bounds the claim is false: contributions are capped at the
assessment ceilings, not at the income, so an oversized additional rate makes
the deductions exceed a small gross income. -/
theorem calculateTax_bounds {input : TaxInput} {r : TaxResult}
    (hok : calculateTax input = Except.ok r)
    (hz : ∀ q, input.zusatzbeitrag = some q → q ≤ 6)
    (hks0 : 0 ≤ input.kirchensteuerSatz) (hks9 : input.kirchensteuerSatz ≤ 0.09) :
    0 ≤ r.lohnsteuer ∧ 0 ≤ r.rentenversicherung ∧ 0 ≤ r.arbeitslosenversicherung ∧
      0 ≤ r.krankenversicherung ∧ 0 ≤ r.pflegeversicherung ∧ 0 ≤ r.nettoJahr ∧
      r.gesamtSteuern + r.gesamtSozialabgaben ≤ r.bruttoJahr := by
  obtain ⟨h1, h2, h3, h4, h5, taxConfig, hcfg, hr⟩ := calculateTax_ok hok
  have hgood : goodConfig taxConfig := TAX_PROFILES_good hcfg
  have hb : 0 ≤ input.bruttoJahr.getD 0 := validField_getD h1
  have hz0 : 0 ≤ input.zusatzbeitrag.getD 0 := validField_getD h2
  have hz6 : input.zusatzbeitrag.getD 0 ≤ 6 := by
    obtain ⟨q, hq, hq0⟩ := validField_iff.mp h2
    rw [hq, Option.getD_some]
    exact hz q hq
  subst hr
  exact computeResult_bounds hgood _ _ _ hb hz0 hz6 hks0 hks9

/-- Witness for C4: the accepted request with gross 50000, class I, additional
rate 3 and church-tax rate 0.09 satisfies all seven bounds. -/
theorem calculateTax_bounds_witness :
    ∃ r, calculateTax inputBounds = Except.ok r ∧ 0 ≤ r.lohnsteuer ∧
      0 ≤ r.rentenversicherung ∧ 0 ≤ r.arbeitslosenversicherung ∧
      0 ≤ r.krankenversicherung ∧ 0 ≤ r.pflegeversicherung ∧ 0 ≤ r.nettoJahr ∧
      r.gesamtSteuern + r.gesamtSozialabgaben ≤ r.bruttoJahr := by
  have hok : calculateTax inputBounds = Except.ok (computeResult cfg2026current
      (inputBounds.taxProfileId.getD DEFAULT_TAX_PROFILE) inputBounds.steuerklasse
      inputBounds.kirchensteuer inputBounds.kirchensteuerSatz (inputBounds.bruttoJahr.getD 0)
      (inputBounds.zusatzbeitrag.getD 0) (inputBounds.werbungskosten.getD 0)
      (inputBounds.kinderAnzahl.getD 0) (inputBounds.alter.getD 0)) :=
    calculateTax_eq_ok_of_valid (by decide) (by decide) (by decide) (by decide) (by decide) rfl
  refine ⟨_, hok, calculateTax_bounds hok ?_ ?_ ?_⟩
  · intro q hq
    rw [show inputBounds.zusatzbeitrag = some (3 : ℚ) from rfl] at hq
    injection hq with h
    rw [← h]
    norm_num
  · rw [show inputBounds.kirchensteuerSatz = (0.09 : ℚ) from rfl]
    norm_num
  · rw [show inputBounds.kirchensteuerSatz = (0.09 : ℚ) from rfl]

end BruttoNetto

namespace BruttoNetto

/-- Counterexample for C4 as stated: the request with gross 100 and additional
contribution rate 300 has all validated fields finite and non-negative, is
accepted, yet its total deductions (170.30) exceed the gross income (100),
because the contributions are capped at the assessment ceilings rather than at
the income. -/
theorem calculateTax_deductions_exceed_gross :
    ∃ r, calculateTax inputHugeZusatz = Except.ok r ∧
      r.bruttoJahr < r.gesamtSteuern + r.gesamtSozialabgaben := by
  have hok : calculateTax inputHugeZusatz = Except.ok (computeResult cfg2026current
      (inputHugeZusatz.taxProfileId.getD DEFAULT_TAX_PROFILE) inputHugeZusatz.steuerklasse
      inputHugeZusatz.kirchensteuer inputHugeZusatz.kirchensteuerSatz
      (inputHugeZusatz.bruttoJahr.getD 0) (inputHugeZusatz.zusatzbeitrag.getD 0)
      (inputHugeZusatz.werbungskosten.getD 0) (inputHugeZusatz.kinderAnzahl.getD 0)
      (inputHugeZusatz.alter.getD 0)) :=
    calculateTax_eq_ok_of_valid (by decide) (by decide) (by decide) (by decide) (by decide) rfl
  have hrv : rentenversicherungOf 100 cfg2026current = (930 : ℚ) / 100 := by
    unfold rentenversicherungOf
    rw [min_eq_left (show (100 : ℚ) ≤ cfg2026current.rvBeitragsbemessungsgrenze from by
          norm_num [cfg2026current]),
      show cfg2026current.rvBeitragssatz = (0.186 : ℚ) from by norm_num [cfg2026current]]
    rw [roundToCents_eval (n := 930) (by norm_num) (by norm_num)]
    norm_num
  have hav : arbeitslosenversicherungOf 100 cfg2026current = (130 : ℚ) / 100 := by
    unfold arbeitslosenversicherungOf
    rw [min_eq_left (show (100 : ℚ) ≤ cfg2026current.avBeitragsbemessungsgrenze from by
          norm_num [cfg2026current]),
      show cfg2026current.avBeitragssatz = (0.026 : ℚ) from by norm_num [cfg2026current]]
    rw [roundToCents_eval (n := 130) (by norm_num) (by norm_num)]
    norm_num
  have hkv : krankenversicherungOf 100 300 cfg2026current = (15730 : ℚ) / 100 := by
    unfold krankenversicherungOf
    rw [min_eq_left (show (100 : ℚ) ≤ cfg2026current.kvBeitragsbemessungsgrenze from by
          norm_num [cfg2026current]),
      show cfg2026current.kvBeitragssatz = (0.146 : ℚ) from by norm_num [cfg2026current]]
    rw [roundToCents_eval (n := 15730) (by norm_num) (by norm_num)]
    norm_num
  have hsatz : calculatePVSatz 30 0 cfg2026current = (24 : ℚ) / 1000 := by
    unfold calculatePVSatz
    rw [if_pos (⟨by norm_num, rfl⟩ : (23 : ℚ) ≤ 30 ∧ (0 : ℚ) = 0)]
    rw [max_eq_left (le_trans (min_le_left ((0 : ℚ) - 1) 4) (by norm_num))]
    rw [max_eq_right (show (0.017 : ℚ) ≤ cfg2026current.pvArbeitnehmerAnteilBasis +
        cfg2026current.pvKinderlosenzuschlag - 0 * cfg2026current.pvKinderabschlag from by
      norm_num [cfg2026current])]
    norm_num [cfg2026current]
  have hpv : pflegeversicherungOf 100 30 0 cfg2026current = (240 : ℚ) / 100 := by
    unfold pflegeversicherungOf
    rw [min_eq_left (show (100 : ℚ) ≤ cfg2026current.pvBeitragsbemessungsgrenze from by
          norm_num [cfg2026current]), hsatz]
    rw [roundToCents_eval (n := 240) (by norm_num) (by norm_num)]
    norm_num
  have hvp : (calculateSozialabgaben 100 300 30 0 cfg2026current).vorsorgepauschale =
      (169 : ℚ) := by
    rw [sozialabgaben_vorsorgepauschale, hrv, hav, hkv, hpv]
    unfold calculateVorsorgepauschale mathRound
    rw [show cfg2026current.avVorsorgeFaktor = (0.235 : ℚ) from by norm_num [cfg2026current]]
    rw [floor_eval (n := 169) (by norm_num) (by norm_num)]
    norm_num
  have hzve : zvERohOf cfg2026current Steuerklasse.I 100 0 169 = 0 := by
    unfold zvERohOf effectiveWerbungskosten effectiveSonderausgaben
    rw [if_neg (by decide : ¬ Steuerklasse.I = Steuerklasse.VI),
      if_neg (by decide : ¬ Steuerklasse.I = Steuerklasse.VI),
      if_neg (by decide : ¬ Steuerklasse.I = Steuerklasse.II)]
    rw [max_eq_left (show (0 : ℚ) ≤ cfg2026current.werbungskostenPauschbetrag from by
      norm_num [cfg2026current])]
    exact max_eq_left (by norm_num [cfg2026current])
  have hround36 : roundTo36 0 cfg2026current = 0 := by
    simp [roundTo36]
  have hlst : lohnsteuerFor cfg2026current Steuerklasse.I 0 = 0 := by
    simp only [lohnsteuerFor]
    exact calculateTarif_zero (by rw [Int.floor_zero]; norm_num [cfg2026current])
  have hsoli : calculateSoli 0 cfg2026current = 0 := by
    unfold calculateSoli
    rw [if_pos (by norm_num [cfg2026current])]
  have hkirche : ∀ lst satz : ℚ, calculateKirchensteuer lst false satz = 0 :=
    fun lst satz => rfl
  have hpb : inputHugeZusatz.bruttoJahr.getD 0 = (100 : ℚ) := rfl
  have hpz : inputHugeZusatz.zusatzbeitrag.getD 0 = (300 : ℚ) := rfl
  have hpw : inputHugeZusatz.werbungskosten.getD 0 = (0 : ℚ) := rfl
  have hpk : inputHugeZusatz.kinderAnzahl.getD 0 = (0 : ℚ) := rfl
  have hpa : inputHugeZusatz.alter.getD 0 = (30 : ℚ) := rfl
  have hpskl : inputHugeZusatz.steuerklasse = Steuerklasse.I := rfl
  have hpki : inputHugeZusatz.kirchensteuer = false := rfl
  refine ⟨_, hok, ?_⟩
  rw [computeResult_bruttoJahr, computeResult_gesamtSteuern, computeResult_lohnsteuer,
    computeResult_solidaritaetszuschlag, computeResult_lohnsteuer, computeResult_kirchensteuer,
    computeResult_lohnsteuer, computeResult_gesamtSozialabgaben]
  rw [hpb, hpz, hpw, hpk, hpa, hpskl, hpki]
  rw [hvp, hzve, hround36, hlst, hsoli, hkirche]
  rw [hrv, hav, hkv, hpv]
  rw [roundToCents_eval (n := 17030) (by norm_num) (by norm_num)]
  push_cast
  norm_num

end BruttoNetto

namespace BruttoNetto

/-- C5: the computed income tax is NOT monotone in the gross income. Raising
the gross from 20223.54 to 20223.55 (class I, current profile, additional rate
2.9, no other deductions) pushes the rounded Pflegeversicherung up one cent,
which pushes the Vorsorgepauschale from 4197 to 4198, which drops the taxable
base to the next lower multiple of 36 (14724 instead of 14760), so the income
tax falls from 390.88 to 384.27. -/
theorem lohnsteuer_not_monotone :
    ∃ ra rb, calculateTax inputC5a = Except.ok ra ∧ calculateTax inputC5b = Except.ok rb ∧
      ra.bruttoJahr < rb.bruttoJahr ∧ rb.lohnsteuer < ra.lohnsteuer := by
  have h1a : validField inputC5a.bruttoJahr = true := by
    rw [show inputC5a.bruttoJahr = some (20223.54 : ℚ) from rfl]
    simp only [validField, decide_eq_true_eq]
    norm_num
  have h2a : validField inputC5a.zusatzbeitrag = true := by
    rw [show inputC5a.zusatzbeitrag = some (2.9 : ℚ) from rfl]
    simp only [validField, decide_eq_true_eq]
    norm_num
  have h1b : validField inputC5b.bruttoJahr = true := by
    rw [show inputC5b.bruttoJahr = some (20223.55 : ℚ) from rfl]
    simp only [validField, decide_eq_true_eq]
    norm_num
  have h2b : validField inputC5b.zusatzbeitrag = true := by
    rw [show inputC5b.zusatzbeitrag = some (2.9 : ℚ) from rfl]
    simp only [validField, decide_eq_true_eq]
    norm_num
  have hokA : calculateTax inputC5a = Except.ok (computeResult cfg2026current
      (inputC5a.taxProfileId.getD DEFAULT_TAX_PROFILE) inputC5a.steuerklasse
      inputC5a.kirchensteuer inputC5a.kirchensteuerSatz (inputC5a.bruttoJahr.getD 0)
      (inputC5a.zusatzbeitrag.getD 0) (inputC5a.werbungskosten.getD 0)
      (inputC5a.kinderAnzahl.getD 0) (inputC5a.alter.getD 0)) :=
    calculateTax_eq_ok_of_valid h1a h2a (by decide) (by decide) (by decide) rfl
  have hokB : calculateTax inputC5b = Except.ok (computeResult cfg2026current
      (inputC5b.taxProfileId.getD DEFAULT_TAX_PROFILE) inputC5b.steuerklasse
      inputC5b.kirchensteuer inputC5b.kirchensteuerSatz (inputC5b.bruttoJahr.getD 0)
      (inputC5b.zusatzbeitrag.getD 0) (inputC5b.werbungskosten.getD 0)
      (inputC5b.kinderAnzahl.getD 0) (inputC5b.alter.getD 0)) :=
    calculateTax_eq_ok_of_valid h1b h2b (by decide) (by decide) (by decide) rfl
  have hsatz : calculatePVSatz 30 0 cfg2026current = (24 : ℚ) / 1000 := by
    unfold calculatePVSatz
    rw [if_pos (⟨by norm_num, rfl⟩ : (23 : ℚ) ≤ 30 ∧ (0 : ℚ) = 0)]
    rw [max_eq_left (le_trans (min_le_left ((0 : ℚ) - 1) 4) (by norm_num))]
    rw [max_eq_right (show (0.017 : ℚ) ≤ cfg2026current.pvArbeitnehmerAnteilBasis +
        cfg2026current.pvKinderlosenzuschlag - 0 * cfg2026current.pvKinderabschlag from by
      norm_num [cfg2026current])]
    norm_num [cfg2026current]
  have hrvA : rentenversicherungOf 20223.54 cfg2026current = (188079 : ℚ) / 100 := by
    unfold rentenversicherungOf
    rw [min_eq_left (show (20223.54 : ℚ) ≤ cfg2026current.rvBeitragsbemessungsgrenze from by
          norm_num [cfg2026current]),
      show cfg2026current.rvBeitragssatz = (0.186 : ℚ) from by norm_num [cfg2026current]]
    rw [roundToCents_eval (n := 188079) (by norm_num) (by norm_num)]
    norm_num
  have havA : arbeitslosenversicherungOf 20223.54 cfg2026current = (26291 : ℚ) / 100 := by
    unfold arbeitslosenversicherungOf
    rw [min_eq_left (show (20223.54 : ℚ) ≤ cfg2026current.avBeitragsbemessungsgrenze from by
          norm_num [cfg2026current]),
      show cfg2026current.avBeitragssatz = (0.026 : ℚ) from by norm_num [cfg2026current]]
    rw [roundToCents_eval (n := 26291) (by norm_num) (by norm_num)]
    norm_num
  have hkvA : krankenversicherungOf 20223.54 2.9 cfg2026current = (176956 : ℚ) / 100 := by
    unfold krankenversicherungOf
    rw [min_eq_left (show (20223.54 : ℚ) ≤ cfg2026current.kvBeitragsbemessungsgrenze from by
          norm_num [cfg2026current]),
      show cfg2026current.kvBeitragssatz = (0.146 : ℚ) from by norm_num [cfg2026current]]
    rw [roundToCents_eval (n := 176956) (by norm_num) (by norm_num)]
    norm_num
  have hpvA : pflegeversicherungOf 20223.54 30 0 cfg2026current = (48536 : ℚ) / 100 := by
    unfold pflegeversicherungOf
    rw [min_eq_left (show (20223.54 : ℚ) ≤ cfg2026current.pvBeitragsbemessungsgrenze from by
          norm_num [cfg2026current]), hsatz]
    rw [roundToCents_eval (n := 48536) (by norm_num) (by norm_num)]
    norm_num
  have hrvB : rentenversicherungOf 20223.55 cfg2026current = (188079 : ℚ) / 100 := by
    unfold rentenversicherungOf
    rw [min_eq_left (show (20223.55 : ℚ) ≤ cfg2026current.rvBeitragsbemessungsgrenze from by
          norm_num [cfg2026current]),
      show cfg2026current.rvBeitragssatz = (0.186 : ℚ) from by norm_num [cfg2026current]]
    rw [roundToCents_eval (n := 188079) (by norm_num) (by norm_num)]
    norm_num
  have havB : arbeitslosenversicherungOf 20223.55 cfg2026current = (26291 : ℚ) / 100 := by
    unfold arbeitslosenversicherungOf
    rw [min_eq_left (show (20223.55 : ℚ) ≤ cfg2026current.avBeitragsbemessungsgrenze from by
          norm_num [cfg2026current]),
      show cfg2026current.avBeitragssatz = (0.026 : ℚ) from by norm_num [cfg2026current]]
    rw [roundToCents_eval (n := 26291) (by norm_num) (by norm_num)]
    norm_num
  have hkvB : krankenversicherungOf 20223.55 2.9 cfg2026current = (176956 : ℚ) / 100 := by
    unfold krankenversicherungOf
    rw [min_eq_left (show (20223.55 : ℚ) ≤ cfg2026current.kvBeitragsbemessungsgrenze from by
          norm_num [cfg2026current]),
      show cfg2026current.kvBeitragssatz = (0.146 : ℚ) from by norm_num [cfg2026current]]
    rw [roundToCents_eval (n := 176956) (by norm_num) (by norm_num)]
    norm_num
  have hpvB : pflegeversicherungOf 20223.55 30 0 cfg2026current = (48537 : ℚ) / 100 := by
    unfold pflegeversicherungOf
    rw [min_eq_left (show (20223.55 : ℚ) ≤ cfg2026current.pvBeitragsbemessungsgrenze from by
          norm_num [cfg2026current]), hsatz]
    rw [roundToCents_eval (n := 48537) (by norm_num) (by norm_num)]
    norm_num
  have hvpA : (calculateSozialabgaben 20223.54 2.9 30 0 cfg2026current).vorsorgepauschale =
      (4197 : ℚ) := by
    rw [sozialabgaben_vorsorgepauschale, hrvA, havA, hkvA, hpvA]
    unfold calculateVorsorgepauschale mathRound
    rw [show cfg2026current.avVorsorgeFaktor = (0.235 : ℚ) from by norm_num [cfg2026current]]
    rw [floor_eval (n := 4197) (by norm_num) (by norm_num)]
    norm_num
  have hvpB : (calculateSozialabgaben 20223.55 2.9 30 0 cfg2026current).vorsorgepauschale =
      (4198 : ℚ) := by
    rw [sozialabgaben_vorsorgepauschale, hrvB, havB, hkvB, hpvB]
    unfold calculateVorsorgepauschale mathRound
    rw [show cfg2026current.avVorsorgeFaktor = (0.235 : ℚ) from by norm_num [cfg2026current]]
    rw [floor_eval (n := 4198) (by norm_num) (by norm_num)]
    norm_num
  have hzveA : zvERohOf cfg2026current Steuerklasse.I 20223.54 0 4197 = (738027 : ℚ) / 50 := by
    unfold zvERohOf effectiveWerbungskosten effectiveSonderausgaben
    rw [if_neg (by decide : ¬ Steuerklasse.I = Steuerklasse.VI),
      if_neg (by decide : ¬ Steuerklasse.I = Steuerklasse.VI),
      if_neg (by decide : ¬ Steuerklasse.I = Steuerklasse.II)]
    rw [max_eq_left (show (0 : ℚ) ≤ cfg2026current.werbungskostenPauschbetrag from by
      norm_num [cfg2026current])]
    rw [max_eq_right (show (0 : ℚ) ≤ 20223.54 - cfg2026current.werbungskostenPauschbetrag -
        cfg2026current.sonderausgabenPauschbetrag - 0 - 4197 from by norm_num [cfg2026current])]
    norm_num [cfg2026current]
  have hzveB : zvERohOf cfg2026current Steuerklasse.I 20223.55 0 4198 = (295191 : ℚ) / 20 := by
    unfold zvERohOf effectiveWerbungskosten effectiveSonderausgaben
    rw [if_neg (by decide : ¬ Steuerklasse.I = Steuerklasse.VI),
      if_neg (by decide : ¬ Steuerklasse.I = Steuerklasse.VI),
      if_neg (by decide : ¬ Steuerklasse.I = Steuerklasse.II)]
    rw [max_eq_left (show (0 : ℚ) ≤ cfg2026current.werbungskostenPauschbetrag from by
      norm_num [cfg2026current])]
    rw [max_eq_right (show (0 : ℚ) ≤ 20223.55 - cfg2026current.werbungskostenPauschbetrag -
        cfg2026current.sonderausgabenPauschbetrag - 0 - 4198 from by norm_num [cfg2026current])]
    norm_num [cfg2026current]
  have hr36A : roundTo36 ((738027 : ℚ) / 50) cfg2026current = (14760 : ℚ) := by
    unfold roundTo36
    rw [show cfg2026current.vorsorgepauschaleRundung = (36 : ℚ) from by norm_num [cfg2026current]]
    rw [floor_eval (n := 410) (by norm_num) (by norm_num)]
    push_cast
    norm_num
  have hr36B : roundTo36 ((295191 : ℚ) / 20) cfg2026current = (14724 : ℚ) := by
    unfold roundTo36
    rw [show cfg2026current.vorsorgepauschaleRundung = (36 : ℚ) from by norm_num [cfg2026current]]
    rw [floor_eval (n := 409) (by norm_num) (by norm_num)]
    push_cast
    norm_num
  have hlstA : lohnsteuerFor cfg2026current Steuerklasse.I 14760 = (39088 : ℚ) / 100 := by
    simp only [lohnsteuerFor]
    have hfl : ⌊(14760 : ℚ)⌋ = 14760 := by decide
    unfold calculateTarif
    rw [hfl]
    have hraw : tarifRaw ((14760 : ℤ) : ℚ) cfg2026current =
        (914.51 * ((14760 - 12348) / 10000) + 1400) * ((14760 - 12348) / 10000) := by
      unfold tarifRaw
      norm_num [cfg2026current]
    rw [hraw, roundToCents_eval (n := 39088) (by norm_num) (by norm_num)]
    norm_num
  have hlstB : lohnsteuerFor cfg2026current Steuerklasse.I 14724 = (38427 : ℚ) / 100 := by
    simp only [lohnsteuerFor]
    have hfl : ⌊(14724 : ℚ)⌋ = 14724 := by decide
    unfold calculateTarif
    rw [hfl]
    have hraw : tarifRaw ((14724 : ℤ) : ℚ) cfg2026current =
        (914.51 * ((14724 - 12348) / 10000) + 1400) * ((14724 - 12348) / 10000) := by
      unfold tarifRaw
      norm_num [cfg2026current]
    rw [hraw, roundToCents_eval (n := 38427) (by norm_num) (by norm_num)]
    norm_num
  have hpbA : inputC5a.bruttoJahr.getD 0 = (20223.54 : ℚ) := rfl
  have hpzA : inputC5a.zusatzbeitrag.getD 0 = (2.9 : ℚ) := rfl
  have hpwA : inputC5a.werbungskosten.getD 0 = (0 : ℚ) := rfl
  have hpkA : inputC5a.kinderAnzahl.getD 0 = (0 : ℚ) := rfl
  have hpaA : inputC5a.alter.getD 0 = (30 : ℚ) := rfl
  have hpsklA : inputC5a.steuerklasse = Steuerklasse.I := rfl
  have hpbB : inputC5b.bruttoJahr.getD 0 = (20223.55 : ℚ) := rfl
  have hpzB : inputC5b.zusatzbeitrag.getD 0 = (2.9 : ℚ) := rfl
  have hpwB : inputC5b.werbungskosten.getD 0 = (0 : ℚ) := rfl
  have hpkB : inputC5b.kinderAnzahl.getD 0 = (0 : ℚ) := rfl
  have hpaB : inputC5b.alter.getD 0 = (30 : ℚ) := rfl
  have hpsklB : inputC5b.steuerklasse = Steuerklasse.I := rfl
  refine ⟨_, _, hokA, hokB, ?_, ?_⟩
  · rw [computeResult_bruttoJahr, computeResult_bruttoJahr, hpbA, hpbB]
    norm_num
  · rw [computeResult_lohnsteuer, computeResult_lohnsteuer]
    rw [hpbA, hpzA, hpwA, hpkA, hpaA, hpsklA, hpbB, hpzB, hpwB, hpkB, hpaB, hpsklB]
    rw [hvpA, hvpB, hzveA, hzveB, hr36A, hr36B, hlstA, hlstB]
    norm_num

end BruttoNetto
